import Mathlib

/-!
Verification of the Aegis Decision Engine (ADE) core against its
specification.  The Go source is embedded shallowly: float64 arithmetic is
modelled with exact rationals (the verified claims are about control flow,
ordering and branch thresholds, none of which depend on rounding), machine
integers with Int/Nat, time instants with Nat, fallible calls with
Except/Option, and the database tables with in-memory lists threaded through
the operations.  Wall-clock timestamps that the Go code stamps onto results
(EvaluatedAt, CreatedAt, ...) are irrelevant to every claim and are either
omitted or passed as explicit parameters.
-/

attribute [local semireducible] Rat.add Rat.mul Rat.sub Rat.inv

namespace ADE

/-- Scalar models the dynamic values (interface values) that flow through the
policy engine: Go float64/int values, strings, and booleans. -/
inductive Scalar where
  | num (q : ℚ)
  | str (s : String)
  | boolVal (b : Bool)
deriving DecidableEq, Repr

/-- toFloat64 from engine.go: only numeric Go types convert to a number;
strings and booleans yield nil. -/
def scalarToFloat : Scalar → Option ℚ
  | .num q => some q
  | .str _ => none
  | .boolVal _ => none

/-- goFormat models fmt.Sprintf with the percent-v verb on a Scalar.  The
exact rendering of numbers is a modelling choice (no verified claim compares
a number with a string); booleans render as in Go. -/
def goFormat : Scalar → String
  | .num q => toString q
  | .str s => s
  | .boolVal true => "true"
  | .boolVal false => "false"

/-- ServiceFeatures from models (part_002/part_003), field for field.
float64 fields become rationals, QueueDepth keeps its Go int type. -/
structure ServiceFeatures where
  serviceID : String := ""
  timestamp : Nat := 0
  cpuCurrent : ℚ := 0
  cpuAvg5m : ℚ := 0
  cpuAvg15m : ℚ := 0
  cpuEMA : ℚ := 0
  cpuTrend : String := ""
  latencyP50 : ℚ := 0
  latencyP95 : ℚ := 0
  latencyP99 : ℚ := 0
  latencyEMA : ℚ := 0
  errorRate : ℚ := 0
  errorRate5m : ℚ := 0
  errorSpike : Bool := false
  requestsPerSec : ℚ := 0
  requestsPerSec5m : ℚ := 0
  requestsTrend : String := ""
  queueDepth : ℤ := 0
  queueDepthAvg5m : ℚ := 0
  queueSaturation : ℚ := 0
  loadScore : ℚ := 0
  healthScore : ℚ := 0
  throttlingRisk : ℚ := 0
deriving DecidableEq, Repr

/-- getFactValue from engine.go: resolve a fact name against the features
struct by (reflective) field name, falling back to the alias map
cpu, latency, error_rate, rps, queue_depth, health_score, load_score.
An unresolvable fact yields none.  The Timestamp field (a time.Time struct,
which the Go code could only ever compare as a formatted string) is rendered
as a string. -/
def getFactValue (fact : String) (f : ServiceFeatures) : Option Scalar :=
  match fact with
  | "ServiceID" => some (.str f.serviceID)
  | "Timestamp" => some (.str (toString f.timestamp))
  | "CPUCurrent" => some (.num f.cpuCurrent)
  | "CPUAvg5m" => some (.num f.cpuAvg5m)
  | "CPUAvg15m" => some (.num f.cpuAvg15m)
  | "CPUEMA" => some (.num f.cpuEMA)
  | "CPUTrend" => some (.str f.cpuTrend)
  | "LatencyP50" => some (.num f.latencyP50)
  | "LatencyP95" => some (.num f.latencyP95)
  | "LatencyP99" => some (.num f.latencyP99)
  | "LatencyEMA" => some (.num f.latencyEMA)
  | "ErrorRate" => some (.num f.errorRate)
  | "ErrorRate5m" => some (.num f.errorRate5m)
  | "ErrorSpike" => some (.boolVal f.errorSpike)
  | "RequestsPerSec" => some (.num f.requestsPerSec)
  | "RequestsPerSec5m" => some (.num f.requestsPerSec5m)
  | "RequestsTrend" => some (.str f.requestsTrend)
  | "QueueDepth" => some (.num (f.queueDepth : ℚ))
  | "QueueDepthAvg5m" => some (.num f.queueDepthAvg5m)
  | "QueueSaturation" => some (.num f.queueSaturation)
  | "LoadScore" => some (.num f.loadScore)
  | "HealthScore" => some (.num f.healthScore)
  | "ThrottlingRisk" => some (.num f.throttlingRisk)
  | "cpu" => some (.num f.cpuCurrent)
  | "latency" => some (.num f.latencyP95)
  | "error_rate" => some (.num f.errorRate)
  | "rps" => some (.num f.requestsPerSec)
  | "queue_depth" => some (.num (f.queueDepth : ℚ))
  | "health_score" => some (.num f.healthScore)
  | "load_score" => some (.num f.loadScore)
  | _ => none

/-- compare from engine.go: numeric comparison when both operands coerce to
numbers, otherwise string equality for the equality operators only. -/
def goCompare (factValue : Scalar) (op : String) (targetValue : Option Scalar) : Bool :=
  let factNum := scalarToFloat factValue
  let targetNum := targetValue.bind scalarToFloat
  match factNum, targetNum with
  | some f, some t =>
      match op with
      | ">" => f > t
      | ">=" => f ≥ t
      | "<" => f < t
      | "<=" => f ≤ t
      | "==" => f = t
      | "!=" => f ≠ t
      | _ => false
  | _, _ =>
      let factStr := goFormat factValue
      let targetStr := match targetValue with
        | some s => goFormat s
        | none => "<nil>"
      match op with
      | "==" => factStr = targetStr
      | "!=" => factStr ≠ targetStr
      | _ => false

/-- Condition from policy/types.go: a struct carrying all four shapes at
once; evaluation gives All precedence, then Any, then Not, then the leaf. -/
inductive Cond where
  | mk (all : List Cond) (anyc : List Cond) (notc : Option Cond)
      (fact : String) (op : String) (value : Option Scalar)
deriving Repr

/-- trueCond is the empty condition (all four shapes absent). -/
def trueCond : Cond := .mk [] [] none ("") ("") none

mutual

/-- evaluateCondition from engine.go: non-empty All is a short-circuit AND,
then non-empty Any a short-circuit OR, then Not, then the leaf; an empty
leaf is true and an unresolved fact is false. -/
def evalCond : Cond → ServiceFeatures → Bool
  | .mk [] [] none fact op value, f =>
      if fact = "" || op = "" then true
      else match getFactValue fact f with
        | none => false
        | some fv => goCompare fv op value
  | .mk [] [] (some c) _ _ _, f => !evalCond c f
  | .mk [] (c :: cs) _ _ _ _, f => evalCond c f || evalAnyList cs f
  | .mk (c :: cs) _ _ _ _ _, f => evalCond c f && evalAllList cs f

/-- Conjunction over the tail of a non-empty All list. -/
def evalAllList : List Cond → ServiceFeatures → Bool
  | [], _ => true
  | c :: cs, f => evalCond c f && evalAllList cs f

/-- Disjunction over the tail of a non-empty Any list. -/
def evalAnyList : List Cond → ServiceFeatures → Bool
  | [], _ => false
  | c :: cs, f => evalCond c f || evalAnyList cs f

end

/-- RuleAction from policy/types.go (Action); Params is irrelevant to the
claims and is kept as an opaque string blob. -/
structure RuleAction where
  type : String := ""
  target : String := ""
  params : String := ""
  cost : ℚ := 0
  risk : ℚ := 0
deriving DecidableEq, Repr

/-- Rule from policy/types.go. -/
structure Rule where
  id : String := ""
  name : String := ""
  priority : Int := 0
  cwhen : Cond := trueCond
  action : RuleAction := {}
  cooldown : String := ""
deriving Repr

/-- Policy from policy/types.go. -/
structure Policy where
  id : String := ""
  version : String := ""
  name : String := ""
  descr : String := ""
  ptype : String := ""
  rules : List Rule := []
deriving Repr

/-- One pass of the inner loop of the exchange sort in Evaluate
(engine.go lines 45-51): the carried element x plays the role of the slot
at index i; whenever swapIf x y holds the slot and y are exchanged.
The pass returns the final slot value and the rewritten tail. -/
def goPassMax (swapIf : α → α → Bool) : α → List α → α × List α
  | x, [] => (x, [])
  | x, y :: rest =>
      if swapIf x y then
        let p := goPassMax swapIf y rest
        (p.1, x :: p.2)
      else
        let p := goPassMax swapIf x rest
        (p.1, y :: p.2)

/-- Outer loop of the exchange sort, with the list length as fuel. -/
def goSwapSortAux (swapIf : α → α → Bool) : Nat → List α → List α
  | _, [] => []
  | 0, l => l
  | n + 1, x :: rest =>
      let p := goPassMax swapIf x rest
      p.1 :: goSwapSortAux swapIf n p.2

/-- goSwapSort is the double-loop exchange sort the Go source uses both in
Evaluate (descending by priority) and in percentile (ascending). -/
def goSwapSort (swapIf : α → α → Bool) (l : List α) : List α :=
  goSwapSortAux swapIf l.length l

/-- sortRulesGo is the sort in Evaluate: swap whenever the earlier slot has
strictly smaller priority, yielding priority-descending order. -/
def sortRulesGo (rules : List Rule) : List Rule :=
  goSwapSort (fun a b => a.priority < b.priority) rules

/-- EvaluationResult from engine.go, minus the EvaluatedAt wall-clock stamp. -/
structure EvaluationResult where
  matched : Bool := false
  ruleID : String := ""
  action : String := ""
  actionPayload : String := ""
  reason : String := ""
  confidence : ℚ := 0
deriving DecidableEq, Repr

/-- calculateConfidence from engine.go. -/
def calculateConfidence (rule : Rule) (f : ServiceFeatures) : ℚ :=
  let base : ℚ := 8/10
  let base := if rule.priority > 50 then base + 1/10 else base
  let base := if f.healthScore < 3/10 then base - 15/100 else base
  if base > 1 then 1 else if base < 0 then 0 else base

/-- evaluateRule from engine.go. -/
def evaluateRule (rule : Rule) (f : ServiceFeatures) : EvaluationResult :=
  if evalCond rule.cwhen f then
    { matched := true
      ruleID := rule.id
      action := rule.action.type
      actionPayload := rule.action.params
      reason := "condition matched for rule " ++ rule.id
      confidence := calculateConfidence rule f }
  else
    { matched := false, ruleID := rule.id, confidence := 1 }

/-- noMatchResult is the default result Evaluate returns when no rule
matches. -/
def noMatchResult : EvaluationResult :=
  { matched := false, reason := "no rules matched", confidence := 1 }

/-- Walk of the sorted rules in Evaluate, accumulating every evaluation
result and stopping at the first match. -/
def evaluateWalk (f : ServiceFeatures) :
    List Rule → List EvaluationResult → EvaluationResult × List EvaluationResult
  | [], acc => (noMatchResult, acc)
  | r :: rest, acc =>
      let res := evaluateRule r f
      let acc2 := acc ++ [res]
      if res.matched then (res, acc2) else evaluateWalk f rest acc2

/-- Evaluate from engine.go: exchange-sort a copy of the rules by priority
descending, then first-match walk. -/
def evaluate (p : Policy) (f : ServiceFeatures) :
    EvaluationResult × List EvaluationResult :=
  evaluateWalk f (sortRulesGo p.rules) []

/-- ruleMatches abbreviates the root-condition test of a rule. -/
def ruleMatches (r : Rule) (f : ServiceFeatures) : Bool :=
  evalCond r.cwhen f

/-- Modelled from the spec (for comparison with the code): a stable sort by
priority descending, ties kept in input order, as the words of the
specification of Evaluate demand.  Insertion places a rule before the first
element of not-larger priority, so earlier input among ties stays earlier. -/
def stableInsertSpec (r : Rule) : List Rule → List Rule
  | [] => [r]
  | y :: ys => if y.priority ≤ r.priority then r :: y :: ys
               else y :: stableInsertSpec r ys

/-- Modelled from the spec: stable priority-descending sort of the rules. -/
def stableSortSpec : List Rule → List Rule
  | [] => []
  | x :: xs => stableInsertSpec x (stableSortSpec xs)

section SortLemmas

variable {α : Type} {β : Type} [LinearOrder β] (k : α → β)

lemma goPassMax_perm (x : α) (l : List α) :
    List.Perm
      ((goPassMax (fun a b => decide (k a < k b)) x l).1 ::
        (goPassMax (fun a b => decide (k a < k b)) x l).2) (x :: l) := by
  induction l generalizing x with
  | nil => simp [goPassMax]
  | cons y rest ih =>
      by_cases h : k x < k y
      · simp only [goPassMax, h]
        simp only [decide_eq_true_eq, if_pos h]
        exact (List.Perm.swap _ _ _).trans ((ih y).cons x)
      · simp only [goPassMax]
        simp only [decide_eq_true_eq, if_neg h]
        exact (List.Perm.swap _ _ _).trans
          (((ih x).cons y).trans (List.Perm.swap _ _ _))

lemma goPassMax_length (x : α) (l : List α) :
    (goPassMax (fun a b => decide (k a < k b)) x l).2.length = l.length := by
  have h := (goPassMax_perm k x l).length_eq
  simpa using h

lemma goPassMax_carry_le (x : α) (l : List α) :
    k x ≤ k (goPassMax (fun a b => decide (k a < k b)) x l).1 := by
  induction l generalizing x with
  | nil => simp [goPassMax]
  | cons y rest ih =>
      by_cases h : k x < k y
      · simp only [goPassMax, decide_eq_true_eq, if_pos h]
        exact le_of_lt (lt_of_lt_of_le h (ih y))
      · simp only [goPassMax, decide_eq_true_eq, if_neg h]
        exact ih x

lemma goPassMax_rest_le (x : α) (l : List α) :
    ∀ y ∈ (goPassMax (fun a b => decide (k a < k b)) x l).2,
      k y ≤ k (goPassMax (fun a b => decide (k a < k b)) x l).1 := by
  induction l generalizing x with
  | nil => simp [goPassMax]
  | cons y rest ih =>
      by_cases h : k x < k y
      · simp only [goPassMax, decide_eq_true_eq, if_pos h, List.mem_cons]
        intro z hz
        cases hz with
        | inl hzx =>
            subst hzx
            exact le_trans (le_of_lt h) (goPassMax_carry_le k y rest)
        | inr hz => exact ih y z hz
      · simp only [goPassMax, decide_eq_true_eq, if_neg h, List.mem_cons]
        intro z hz
        cases hz with
        | inl hzy =>
            subst hzy
            exact le_trans (le_of_not_lt h) (goPassMax_carry_le k x rest)
        | inr hz => exact ih x z hz

lemma goSwapSortAux_perm_sorted :
    ∀ (n : Nat) (l : List α), l.length = n →
      List.Perm (goSwapSortAux (fun a b => decide (k a < k b)) n l) l ∧
      (goSwapSortAux (fun a b => decide (k a < k b)) n l).Sorted
        (fun a b => k b ≤ k a) := by
  intro n
  induction n with
  | zero =>
      intro l hl
      rw [List.length_eq_zero] at hl
      subst hl
      exact ⟨List.Perm.refl _, List.sorted_nil⟩
  | succ m ih =>
      intro l hl
      match l with
      | [] => exact ⟨List.Perm.refl _, List.sorted_nil⟩
      | x :: rest =>
          simp only [goSwapSortAux]
          have hlen : (goPassMax (fun a b => decide (k a < k b)) x rest).2.length = m := by
            rw [goPassMax_length]
            simpa using hl
          obtain ⟨hperm, hsorted⟩ := ih _ hlen
          refine ⟨(hperm.cons _).trans (goPassMax_perm k x rest), ?_⟩
          rw [List.sorted_cons]
          refine ⟨?_, hsorted⟩
          intro b hb
          exact goPassMax_rest_le k x rest b (hperm.mem_iff.mp hb)

lemma goSwapSort_perm (l : List α) :
    List.Perm (goSwapSort (fun a b => decide (k a < k b)) l) l :=
  (goSwapSortAux_perm_sorted k l.length l rfl).1

lemma goSwapSort_sorted (l : List α) :
    (goSwapSort (fun a b => decide (k a < k b)) l).Sorted (fun a b => k b ≤ k a) :=
  (goSwapSortAux_perm_sorted k l.length l rfl).2

end SortLemmas

lemma evaluateRule_matched (r : Rule) (f : ServiceFeatures) :
    (evaluateRule r f).matched = ruleMatches r f := by
  unfold evaluateRule ruleMatches
  split <;> simp_all

/-- evaluateWalk returns the first matching rule's result together with the
accumulated per-rule results up to and including it; with no match it
returns the default result and all results. -/
lemma evaluateWalk_spec (f : ServiceFeatures) :
    ∀ (l : List Rule) (acc : List EvaluationResult),
      (∀ r, l.find? (fun r => ruleMatches r f) = some r →
        evaluateWalk f l acc =
          (evaluateRule r f,
            acc ++ (l.takeWhile (fun x => !ruleMatches x f)).map
              (fun x => evaluateRule x f) ++ [evaluateRule r f])) ∧
      (l.find? (fun r => ruleMatches r f) = none →
        evaluateWalk f l acc =
          (noMatchResult, acc ++ l.map (fun x => evaluateRule x f))) := by
  intro l
  induction l with
  | nil =>
      intro acc
      constructor
      · intro r hr
        simp at hr
      · intro _
        simp [evaluateWalk]
  | cons x rest ih =>
      intro acc
      by_cases hx : ruleMatches x f
      · constructor
        · intro r hr
          simp only [List.find?_cons, hx, cond_true] at hr
          cases hr
          simp [evaluateWalk, evaluateRule_matched, hx, List.takeWhile_cons]
        · intro hr
          simp only [List.find?_cons, hx, cond_true] at hr
          cases hr
      · rw [Bool.not_eq_true] at hx
        constructor
        · intro r hr
          simp only [List.find?_cons, hx, cond_false] at hr
          have := ((ih (acc ++ [evaluateRule x f])).1) r hr
          simp only [evaluateWalk, evaluateRule_matched, hx, if_false,
            Bool.false_eq_true] at this ⊢
          rw [this]
          simp [List.takeWhile_cons, hx]
        · intro hr
          simp only [List.find?_cons, hx, cond_false] at hr
          have := ((ih (acc ++ [evaluateRule x f])).2) hr
          simp only [evaluateWalk, evaluateRule_matched, hx, if_false,
            Bool.false_eq_true] at this ⊢
          rw [this]
          simp

lemma evaluateRule_ruleID (r : Rule) (f : ServiceFeatures) :
    (evaluateRule r f).ruleID = r.id := by
  unfold evaluateRule
  split <;> rfl

lemma evaluateRule_action_of_matched (r : Rule) (f : ServiceFeatures)
    (h : ruleMatches r f = true) : (evaluateRule r f).action = r.action.type := by
  unfold ruleMatches at h
  simp [evaluateRule, h]

lemma evaluateRule_confidence_of_matched (r : Rule) (f : ServiceFeatures)
    (h : ruleMatches r f = true) :
    (evaluateRule r f).confidence = calculateConfidence r f := by
  unfold ruleMatches at h
  simp [evaluateRule, h]

/-- C1: Evaluate walks the rules sorted by priority descending and returns
the first match without evaluating later rules, with matched=false and
confidence 1.0 when nothing matches.  Amended part: the sort the code uses
is the double-loop exchange sort sortRulesGo, which orders by priority
descending but is NOT stable — ties are not kept in declaration order (see
the counterexample).  Everything else of the claim holds: the sorted list
is a permutation of the rules sorted by priority descending; when the
first matching rule in that order is r, Evaluate returns r's result
(rule_id, action, confidence) and the evaluation results of exactly the
rules visited up to and including r; with no match it returns the default
no-match result with confidence 1.0 and all rules' results. -/
theorem C1_evaluate_first_match (p : Policy) (f : ServiceFeatures) :
    List.Perm (sortRulesGo p.rules) p.rules ∧
    (sortRulesGo p.rules).Sorted (fun a b => b.priority ≤ a.priority) ∧
    (∀ r, (sortRulesGo p.rules).find? (fun x => ruleMatches x f) = some r →
      evaluate p f =
        (evaluateRule r f,
          ((sortRulesGo p.rules).takeWhile (fun x => !ruleMatches x f)).map
            (fun x => evaluateRule x f) ++ [evaluateRule r f]) ∧
      (evaluateRule r f).matched = true ∧
      (evaluateRule r f).ruleID = r.id ∧
      (evaluateRule r f).action = r.action.type ∧
      (evaluateRule r f).confidence = calculateConfidence r f) ∧
    ((sortRulesGo p.rules).find? (fun x => ruleMatches x f) = none →
      evaluate p f =
        (noMatchResult, (sortRulesGo p.rules).map (fun x => evaluateRule x f)) ∧
      noMatchResult.matched = false ∧ noMatchResult.confidence = 1) := by
  refine ⟨goSwapSort_perm (fun r : Rule => r.priority) p.rules,
    goSwapSort_sorted (fun r : Rule => r.priority) p.rules, ?_, ?_⟩
  · intro r hr
    have hm : ruleMatches r f = true := by
      have := List.find?_some hr
      simpa using this
    have hwalk := ((evaluateWalk_spec f (sortRulesGo p.rules) []).1) r hr
    refine ⟨?_, ?_, evaluateRule_ruleID r f,
      evaluateRule_action_of_matched r f hm,
      evaluateRule_confidence_of_matched r f hm⟩
    · unfold evaluate
      rw [hwalk]
      simp
    · rw [evaluateRule_matched]
      exact hm
  · intro hr
    have hwalk := ((evaluateWalk_spec f (sortRulesGo p.rules) []).2) hr
    refine ⟨?_, rfl, rfl⟩
    unfold evaluate
    rw [hwalk]
    simp

/-- Concrete condition requiring cpu above 1000 (never true at cpu 50). -/
def condCpuHuge : Cond := Cond.mk [] [] none ("cpu") (">") (some (Scalar.num 1000))

/-- Concrete rules exhibiting the instability of the exchange sort: two
always-matching rules of equal priority 5 followed by a non-matching rule
of priority 7. -/
def ruleC1A : Rule := { id := "A", name := "a", priority := 5, action := { type := "scale_up" } }

def ruleC1B : Rule := { id := "B", name := "b", priority := 5, action := { type := "scale_down" } }

def ruleC1C : Rule :=
  { id := "C", name := "c", priority := 7, cwhen := condCpuHuge, action := { type := "throttle" } }

def polC1 : Policy := { id := "p", version := "1", rules := [ruleC1A, ruleC1B, ruleC1C] }

def featsC1 : ServiceFeatures := { cpuCurrent := 50 }

/-- C1 counterexample: the claim demands a STABLE priority-descending sort
(ties in declaration order), under which the first matching rule of polC1
is A; but Evaluate's exchange sort reorders the equal-priority pair while
floating rule C to the front, so Evaluate returns rule B. -/
theorem C1_counterexample :
    ((stableSortSpec polC1.rules).find? (fun r => ruleMatches r featsC1)).map
      (fun r => r.id) = some ("A") ∧
    (evaluate polC1 featsC1).1.ruleID = "B" := by
  constructor <;> decide

/-- C1 witness: the amended theorem applied to the concrete policy polC1,
where the first match in exchange-sort order is rule B. -/
theorem C1_witness :
    (evaluate polC1 featsC1).1.matched = true ∧
    (evaluate polC1 featsC1).1.ruleID = ruleC1B.id := by
  have h := (C1_evaluate_first_match polC1 featsC1).2.2.1 ruleC1B (by rfl)
  exact ⟨by rw [h.1]; exact h.2.1, by rw [h.1]; exact h.2.2.1⟩

/-! Circuit breaker (unnamed part_000, package circuitbreaker).  Time is a
Nat instant; the Go test now.Sub(lastFailure) > ResetTimeout becomes
lastFailure + resetTimeout < now. -/

/-- State from circuitbreaker: closed, open, half-open. -/
inductive CBState where
  | closed
  | opened
  | halfOpen
deriving DecidableEq, Repr

/-- Config from circuitbreaker. -/
structure CBConfig where
  maxFailures : Nat := 5
  resetTimeout : Nat := 30
  halfOpenMaxCalls : Nat := 3
deriving DecidableEq, Repr

/-- CircuitBreaker mutable fields (the mutex only guards them; the claims
are about the sequential transition semantics). -/
structure CircuitBreaker where
  state : CBState := .closed
  failures : Nat := 0
  successes : Nat := 0
  lastFailure : Nat := 0
deriving DecidableEq, Repr

/-- New from circuitbreaker: a fresh breaker starts closed with zeroed
counters. -/
def cbNew : CircuitBreaker := {}

/-- Reject reasons canExecute can produce. -/
inductive CBReject where
  | circuitOpen
  | halfOpenLimit
deriving DecidableEq, Repr

/-- canExecute from circuitbreaker: closed passes; open rejects with the
circuit-open error until more than resetTimeout has elapsed since the last
failure, then transitions to half-open with the success counter reset;
half-open admits while below halfOpenMaxCalls successes. -/
def canExecute (cfg : CBConfig) (now : Nat) (cb : CircuitBreaker) :
    CircuitBreaker × Option CBReject :=
  match cb.state with
  | .closed => (cb, none)
  | .opened =>
      if cb.lastFailure + cfg.resetTimeout < now then
        ({ cb with state := .halfOpen, successes := 0 }, none)
      else
        (cb, some .circuitOpen)
  | .halfOpen =>
      if cb.successes ≥ cfg.halfOpenMaxCalls then (cb, some .halfOpenLimit)
      else (cb, none)

/-- recordResult from circuitbreaker. -/
def recordResult (cfg : CBConfig) (now : Nat) (ok : Bool) (cb : CircuitBreaker) :
    CircuitBreaker :=
  if ok then
    match cb.state with
    | .closed => { cb with failures := 0 }
    | .halfOpen =>
        if cb.successes + 1 ≥ cfg.halfOpenMaxCalls then
          { cb with state := .closed, failures := 0, successes := 0 }
        else
          { cb with successes := cb.successes + 1 }
    | .opened => cb
  else
    match cb.state with
    | .closed =>
        if cb.failures + 1 ≥ cfg.maxFailures then
          { cb with state := .opened, failures := cb.failures + 1, lastFailure := now }
        else
          { cb with failures := cb.failures + 1, lastFailure := now }
    | .halfOpen => { cb with state := .opened, lastFailure := now }
    | .opened => cb

/-- Execute from circuitbreaker: gate through canExecute, then run the
function (its outcome is the ok flag) and record the result. -/
def cbExecute (cfg : CBConfig) (now : Nat) (ok : Bool) (cb : CircuitBreaker) :
    CircuitBreaker × Option CBReject :=
  let p := canExecute cfg now cb
  match p.2 with
  | some e => (p.1, some e)
  | none => (recordResult cfg now ok p.1, none)

/-- Reset from circuitbreaker: unconditionally back to closed with zeroed
counters (lastFailure is left alone by the Go code). -/
def cbReset (cb : CircuitBreaker) : CircuitBreaker :=
  { cb with state := .closed, failures := 0, successes := 0 }

/-- failCalls runs one failing call per listed time instant. -/
def failCalls (cfg : CBConfig) (ts : List Nat) (cb : CircuitBreaker) : CircuitBreaker :=
  ts.foldl (fun b t => (cbExecute cfg t false b).1) cb

/-- succCalls runs one successful call per listed time instant. -/
def succCalls (cfg : CBConfig) (ts : List Nat) (cb : CircuitBreaker) : CircuitBreaker :=
  ts.foldl (fun b t => (cbExecute cfg t true b).1) cb

lemma failCalls_closed_until (cfg : CBConfig) :
    ∀ (ts : List Nat) (cb : CircuitBreaker), cb.state = .closed →
      cb.failures + ts.length = cfg.maxFailures → ts ≠ [] →
      (failCalls cfg ts cb).state = .opened := by
  intro ts
  induction ts with
  | nil => intro cb _ _ hne; exact absurd rfl hne
  | cons t rest ih =>
      intro cb hst hcount _
      have hstep : (cbExecute cfg t false cb).1 =
          recordResult cfg t false cb := by
        simp [cbExecute, canExecute, hst]
      by_cases hmax : cb.failures + 1 ≥ cfg.maxFailures
      · have hrest : rest = [] := by
          have : cb.failures + (rest.length + 1) = cfg.maxFailures := by
            simpa using hcount
          have hlen : rest.length = 0 := by omega
          exact List.length_eq_zero.mp hlen
        subst hrest
        simp only [failCalls, List.foldl_cons, List.foldl_nil]
        rw [hstep]
        simp [recordResult, hst, hmax]
      · have hlt : cb.failures + 1 < cfg.maxFailures := by omega
        have hrec : recordResult cfg t false cb =
            { cb with failures := cb.failures + 1, lastFailure := t } := by
          simp [recordResult, hst, hmax]
        have hne2 : rest ≠ [] := by
          intro h
          subst h
          simp at hcount
          omega
        have := ih { cb with failures := cb.failures + 1, lastFailure := t }
          (by simp [hst]) (by simp at hcount ⊢; omega) hne2
        simpa [failCalls, hstep, hrec] using this

lemma succCalls_halfOpen_until (cfg : CBConfig) :
    ∀ (ts : List Nat) (cb : CircuitBreaker), cb.state = .halfOpen →
      cb.successes + ts.length = cfg.halfOpenMaxCalls → ts ≠ [] →
      (succCalls cfg ts cb).state = .closed ∧
      (succCalls cfg ts cb).failures = 0 ∧
      (succCalls cfg ts cb).successes = 0 := by
  intro ts
  induction ts with
  | nil => intro cb _ _ hne; exact absurd rfl hne
  | cons t rest ih =>
      intro cb hst hcount _
      have hadm : cb.successes < cfg.halfOpenMaxCalls := by
        have : cb.successes + (rest.length + 1) = cfg.halfOpenMaxCalls := by
          simpa using hcount
        omega
      have hstep : (cbExecute cfg t true cb).1 = recordResult cfg t true cb := by
        simp [cbExecute, canExecute, hst, Nat.not_le.mpr hadm]
      by_cases hmax : cb.successes + 1 ≥ cfg.halfOpenMaxCalls
      · have hrest : rest = [] := by
          have : cb.successes + (rest.length + 1) = cfg.halfOpenMaxCalls := by
            simpa using hcount
          have hlen : rest.length = 0 := by omega
          exact List.length_eq_zero.mp hlen
        subst hrest
        simp only [succCalls, List.foldl_cons, List.foldl_nil]
        rw [hstep]
        simp [recordResult, hst, hmax]
      · have hrec : recordResult cfg t true cb =
            { cb with successes := cb.successes + 1 } := by
          simp [recordResult, hst, hmax]
        have hne2 : rest ≠ [] := by
          intro h
          subst h
          simp at hcount
          omega
        have := ih { cb with successes := cb.successes + 1 }
          (by simp [hst]) (by simp at hcount ⊢; omega) hne2
        simpa [succCalls, hstep, hrec] using this

/-- C6: the circuit breaker state machine.  Starting closed, maxFailures
consecutive failing calls open the breaker; while open a call is rejected
with the circuit-open error as long as no more than resetTimeout has
elapsed since the last failure, and once strictly more has elapsed the
next call moves it to half-open with the success counter reset; in
half-open, halfOpenMaxCalls successful calls close it with counters
zeroed, while a single failing call re-opens it; Reset unconditionally
returns to closed with zeroed counters. -/
theorem C6_circuit_breaker (cfg : CBConfig) :
    (cbNew.state = .closed ∧ cbNew.failures = 0 ∧ cbNew.successes = 0) ∧
    (∀ ts : List Nat, ts.length = cfg.maxFailures → 1 ≤ cfg.maxFailures →
      (failCalls cfg ts cbNew).state = .opened) ∧
    (∀ (cb : CircuitBreaker) (now : Nat) (ok : Bool), cb.state = .opened →
      ¬ (cb.lastFailure + cfg.resetTimeout < now) →
      cbExecute cfg now ok cb = (cb, some .circuitOpen)) ∧
    (∀ (cb : CircuitBreaker) (now : Nat), cb.state = .opened →
      cb.lastFailure + cfg.resetTimeout < now →
      canExecute cfg now cb = ({ cb with state := .halfOpen, successes := 0 }, none)) ∧
    (∀ (cb : CircuitBreaker) (ts : List Nat), cb.state = .halfOpen →
      cb.successes = 0 → ts.length = cfg.halfOpenMaxCalls →
      1 ≤ cfg.halfOpenMaxCalls →
      (succCalls cfg ts cb).state = .closed ∧
      (succCalls cfg ts cb).failures = 0 ∧
      (succCalls cfg ts cb).successes = 0) ∧
    (∀ (cb : CircuitBreaker) (now : Nat), cb.state = .halfOpen →
      cb.successes < cfg.halfOpenMaxCalls →
      cbExecute cfg now false cb =
        ({ cb with state := .opened, lastFailure := now }, none)) ∧
    (∀ cb : CircuitBreaker, (cbReset cb).state = .closed ∧
      (cbReset cb).failures = 0 ∧ (cbReset cb).successes = 0) := by
  refine ⟨⟨rfl, rfl, rfl⟩, ?_, ?_, ?_, ?_, ?_, ?_⟩
  · intro ts hlen hpos
    refine failCalls_closed_until cfg ts cbNew rfl (by simpa [cbNew] using hlen) ?_
    intro h
    subst h
    simp at hlen
    omega
  · intro cb now ok hst htime
    simp [cbExecute, canExecute, hst, htime]
  · intro cb now hst htime
    simp [canExecute, hst, htime]
  · intro cb ts hst hzero hlen hpos
    refine succCalls_halfOpen_until cfg ts cb hst (by omega) ?_
    intro h
    subst h
    simp at hlen
    omega
  · intro cb now hst hadm
    simp [cbExecute, canExecute, hst, Nat.not_le.mpr hadm, recordResult]
  · intro cb
    exact ⟨rfl, rfl, rfl⟩

/-- C6 witness: the state-machine theorem applied to the default
configuration (5 failures, 30 units reset, 3 half-open calls) at concrete
instants. -/
theorem C6_witness :
    (failCalls {} [1, 2, 3, 4, 5] cbNew).state = .opened ∧
    cbExecute {} 20 true { state := .opened, failures := 5, lastFailure := 5 } =
      ({ state := .opened, failures := 5, lastFailure := 5 }, some .circuitOpen) ∧
    canExecute {} 36 { state := .opened, failures := 5, lastFailure := 5 } =
      ({ state := .halfOpen, failures := 5, successes := 0, lastFailure := 5 }, none) ∧
    (succCalls {} [40, 41, 42] { state := .halfOpen, failures := 5, lastFailure := 5 }).state
      = .closed ∧
    cbExecute {} 40 false { state := .halfOpen, failures := 5, lastFailure := 5 } =
      ({ state := .opened, failures := 5, lastFailure := 40 }, none) ∧
    (cbReset { state := .opened, failures := 5, lastFailure := 5 }).state = .closed := by
  have h := C6_circuit_breaker {}
  refine ⟨h.2.1 [1, 2, 3, 4, 5] (by decide) (by decide),
    h.2.2.1 _ 20 true rfl (by decide),
    h.2.2.2.1 _ 36 rfl (by decide),
    (h.2.2.2.2.1 _ [40, 41, 42] rfl rfl (by decide) (by decide)).1,
    h.2.2.2.2.2.1 _ 40 rfl (by decide),
    (h.2.2.2.2.2.2 _).1⟩

/-! Webhook delivery with retries (loader.go, package webhook,
sendWithRetries).  A transport outcome is none for a transport error and
some s for an HTTP response with status s; an attempt succeeds when the
outcome is some s with s below 500. -/

/-- sendLoop models the retry loop of sendWithRetries: the first argument
is the number of loop iterations still permitted (maxRetries plus one at
the top), the second the current attempt index.  It returns the result —
some (status, attempts) on success, none when the loop exhausts all
attempts and the final error is returned — paired with the number of
transport calls actually performed. -/
def sendLoop (transport : Nat → Option Nat) : Nat → Nat → Option (Nat × Nat) × Nat
  | 0, _ => (none, 0)
  | r + 1, attempt =>
      match transport attempt with
      | some s =>
          if s < 500 then (some (s, attempt + 1), 1)
          else
            let p := sendLoop transport r (attempt + 1)
            (p.1, p.2 + 1)
      | none =>
          let p := sendLoop transport r (attempt + 1)
          (p.1, p.2 + 1)

/-- sendWithRetries from loader.go: attempts 0 through maxRetries. -/
def sendWithRetries (transport : Nat → Option Nat) (maxRetries : Nat) :
    Option (Nat × Nat) × Nat :=
  sendLoop transport (maxRetries + 1) 0

/-- attemptFails holds when a transport outcome is an error or a status of
at least 500 (the retryable outcomes). -/
def attemptFails (o : Option Nat) : Prop :=
  ∀ s, o = some s → 500 ≤ s

lemma sendLoop_all_fail (transport : Nat → Option Nat) :
    ∀ (r attempt : Nat),
      (∀ i, attempt ≤ i → i < attempt + r → attemptFails (transport i)) →
      sendLoop transport r attempt = (none, r) := by
  intro r
  induction r with
  | zero => intro attempt _; rfl
  | succ m ih =>
      intro attempt hfail
      have hrest : sendLoop transport m (attempt + 1) = (none, m) := by
        refine ih (attempt + 1) ?_
        intro i h1 h2
        exact hfail i (by omega) (by omega)
      have hcur := hfail attempt (le_refl _) (by omega)
      cases hco : transport attempt with
      | none => simp [sendLoop, hco, hrest]
      | some s =>
          have h500 : 500 ≤ s := hcur s hco
          simp [sendLoop, hco, Nat.not_lt.mpr h500, hrest]

/-- C7: when every attempt fails (transport error or status at least 500,
for example a constant 503), sendWithRetries performs exactly
maxRetries + 1 transport calls and returns the error; when an attempt
returns no transport error and a status below 500 the loop stops at once,
so a first-attempt 400 response is attempted exactly once and never
retried. -/
theorem C7_retry_ceiling :
    (∀ (transport : Nat → Option Nat) (maxRetries : Nat),
      (∀ i, i ≤ maxRetries → attemptFails (transport i)) →
      sendWithRetries transport maxRetries = (none, maxRetries + 1)) ∧
    (∀ (transport : Nat → Option Nat) (maxRetries s : Nat),
      transport 0 = some s → s < 500 →
      sendWithRetries transport maxRetries = (some (s, 1), 1)) := by
  constructor
  · intro transport maxRetries hfail
    unfold sendWithRetries
    exact sendLoop_all_fail transport (maxRetries + 1) 0
      (fun i _ h2 => hfail i (by omega))
  · intro transport maxRetries s h0 hs
    unfold sendWithRetries
    simp [sendLoop, h0, hs]

/-- C7 witness: a webhook answering 503 forever with maxRetries 3 is
called exactly 4 times and ends in the error; a first-attempt 400 is
called exactly once. -/
theorem C7_witness :
    sendWithRetries (fun _ => some 503) 3 = (none, 4) ∧
    sendWithRetries (fun _ => some 400) 3 = (some (400, 1), 1) := by
  exact ⟨C7_retry_ceiling.1 (fun _ => some 503) 3
      (fun i _ s hs => by cases hs; decide),
    C7_retry_ceiling.2 (fun _ => some 400) 3 400 rfl (by decide)⟩

/-! Feedback and rollback gating (feedback/service.go). -/

/-- DriftDetails from feedback/service.go (the per-metric list is carried
by detectDrift; shouldRollback only reads the severity). -/
structure DriftDetails where
  driftType : String := ""
  severity : String := ""
  thresholdViolated : ℚ := 0
  descr : String := ""
deriving DecidableEq, Repr

/-- shouldRollback from feedback/service.go. -/
def shouldRollback (impactScore : ℚ) (driftDetected : Bool) (drift : DriftDetails) : Bool :=
  if impactScore < -(7/10 : ℚ) then true
  else if driftDetected then
    if drift.severity = "critical" then true
    else if drift.severity = "high" && decide (impactScore < -(4/10 : ℚ)) then true
    else false
  else false

/-- C9: rollback is recommended exactly when the impact score is below
-0.7, or drift was detected with severity critical, or drift was detected
with severity high and the impact score is below -0.4; in particular
impact -0.8 is recommended, impact -0.5 with severity high is recommended,
and impact -0.5 with severity medium is not. -/
theorem C9_rollback_gating :
    (∀ (s : ℚ) (driftDetected : Bool) (d : DriftDetails),
      shouldRollback s driftDetected d = true ↔
        (s < -(7/10) ∨ (driftDetected = true ∧ d.severity = "critical") ∨
          (driftDetected = true ∧ d.severity = "high" ∧ s < -(4/10)))) ∧
    shouldRollback (-(8/10)) false {} = true ∧
    shouldRollback (-(5/10)) true { severity := "high" } = true ∧
    shouldRollback (-(5/10)) true { severity := "medium" } = false := by
  refine ⟨?_, by decide, by decide, by decide⟩
  intro s driftDetected d
  unfold shouldRollback
  by_cases h7 : s < -(7/10 : ℚ)
  · simp [h7]
  · by_cases hd : driftDetected
    · by_cases hc : d.severity = "critical"
      · simp [h7, hd, hc]
      · by_cases hh : d.severity = "high"
        · by_cases h4 : s < -(4/10 : ℚ)
          · simp [h7, hd, hc, hh, h4]
          · simp [h7, hd, hc, hh, h4]
        · simp [h7, hd, hc, hh]
    · simp [h7, hd]

/-- C9 witness: the gating theorem at the first concrete example (impact
-0.8 with no drift). -/
theorem C9_witness :
    shouldRollback (-(8/10)) false {} = true :=
  C9_rollback_gating.2.1

/-! Ingest and the event store (ingest/service.go, event_store.go).  The
events table is a list of rows; the insert with ON CONFLICT
(idempotency_key) DO NOTHING is a no-op when the key exists and reports no
error either way.  The optional Kafka writer is absent (nil), so published
is always false. -/

/-- Event from models/event.go (payload kept as opaque bytes; the DB
surrogate id and created_at are irrelevant to the claims). -/
structure GoEvent where
  eventID : String := ""
  idempotencyKey : String := ""
  serviceID : String := ""
  eventType : String := ""
  payload : String := ""
  timestamp : Nat := 0
deriving DecidableEq, Repr

/-- IngestRequest from ingest/service.go; timestamp 0 models the zero
time.Time. -/
structure IngestRequest where
  eventID : String := ""
  idempotencyKey : String := ""
  serviceID : String := ""
  eventType : String := ""
  payload : String := ""
  timestamp : Nat := 0
deriving DecidableEq, Repr

/-- Validate from ingest/service.go: reject any empty required field, then
default a zero timestamp to now.  Returns the (possibly updated) request. -/
def ingestValidate (now : Nat) (r : IngestRequest) : Except String IngestRequest :=
  if r.eventID = "" then .error ("event_id is required")
  else if r.idempotencyKey = "" then .error ("idempotency_key is required")
  else if r.serviceID = "" then .error ("service_id is required")
  else if r.eventType = "" then .error ("event_type is required")
  else if r.payload = "" then .error ("payload is required")
  else if r.timestamp = 0 then .ok { r with timestamp := now }
  else .ok r

/-- validEventType is the closed set of the events table's chk_event_type
CHECK constraint (migrations/000001_001_create_base_tables.up.sql). -/
def validEventType (t : String) : Bool :=
  t = "metrics" || t = "alert" || t = "custom"

/-- Store from event_store.go against the events table of the migration:
INSERT ... ON CONFLICT (idempotency_key) DO NOTHING.  The CHECK constraint
chk_event_type on event_type is evaluated on the proposed row first and
its violation is a real error that Store propagates (it is not
pgx.ErrNoRows); an idempotency_key conflict is the ON CONFLICT target and
is silently dropped with no error; a conflict on the separate event_id
UNIQUE constraint is not the ON CONFLICT target and also errors. -/
def eventStoreInsert (db : List GoEvent) (e : GoEvent) :
    Except String (List GoEvent) :=
  if !(validEventType e.eventType) then
    .error ("new row violates check constraint chk_event_type")
  else if db.any (fun x => x.idempotencyKey = e.idempotencyKey) then .ok db
  else if db.any (fun x => x.eventID = e.eventID) then
    .error ("duplicate key value violates unique constraint events_event_id_key")
  else .ok (db ++ [e])

/-- IngestResponse from ingest/service.go: there is no duplicate field. -/
structure IngestResponse where
  eventID : String := ""
  status : String := ""
  stored : Bool := false
  published : Bool := false
  timestamp : Nat := 0
deriving DecidableEq, Repr

/-- mkEvent builds the models.Event row from a validated request. -/
def mkEvent (r : IngestRequest) : GoEvent :=
  { eventID := r.eventID, idempotencyKey := r.idempotencyKey,
    serviceID := r.serviceID, eventType := r.eventType,
    payload := r.payload, timestamp := r.timestamp }

/-- Ingest from ingest/service.go with a nil Kafka writer: validate
(failures wrapped with the validation prefix), build the event, store it
(store failures — such as a chk_event_type CHECK violation — are wrapped
with the store prefix and surfaced), and answer accepted/stored=true. -/
def ingest (db : List GoEvent) (now : Nat) (req : IngestRequest) :
    Except String (List GoEvent × IngestResponse) :=
  match ingestValidate now req with
  | .error e => .error ("validation failed: " ++ e)
  | .ok r =>
      match eventStoreInsert db (mkEvent r) with
      | .error e => .error ("failed to store event: " ++ e)
      | .ok db2 =>
          .ok (db2,
            { eventID := r.eventID, status := "accepted", stored := true,
              published := false, timestamp := now })

/-- countKey counts the stored rows carrying an idempotency key. -/
def countKey (db : List GoEvent) (key : String) : Nat :=
  (db.filter (fun e => e.idempotencyKey = key)).length

lemma ingestValidate_ok_fields (now : Nat) (r : IngestRequest)
    (h1 : r.eventID ≠ "") (h2 : r.idempotencyKey ≠ "") (h3 : r.serviceID ≠ "")
    (h4 : r.eventType ≠ "") (h5 : r.payload ≠ "") :
    ingestValidate now r =
      .ok (if r.timestamp = 0 then { r with timestamp := now } else r) := by
  unfold ingestValidate
  simp only [h1, h2, h3, h4, h5, if_false]
  split <;> simp_all

lemma eventStoreInsert_ok_fresh (db : List GoEvent) (e : GoEvent)
    (ht : validEventType e.eventType = true)
    (hk : ∀ x ∈ db, x.idempotencyKey ≠ e.idempotencyKey)
    (hi : ∀ x ∈ db, x.eventID ≠ e.eventID) :
    eventStoreInsert db e = .ok (db ++ [e]) := by
  have h2 : db.any (fun x => x.idempotencyKey = e.idempotencyKey) = false := by
    rw [List.any_eq_false]
    intro x hx
    simpa using hk x hx
  have h3 : db.any (fun x => x.eventID = e.eventID) = false := by
    rw [List.any_eq_false]
    intro x hx
    simpa using hi x hx
  simp [eventStoreInsert, ht, h2, h3]

lemma eventStoreInsert_conflict (db : List GoEvent) (e : GoEvent)
    (ht : validEventType e.eventType = true)
    (hk : db.any (fun x => x.idempotencyKey = e.idempotencyKey) = true) :
    eventStoreInsert db e = .ok db := by
  simp [eventStoreInsert, ht, hk]

lemma eventStoreInsert_badtype (db : List GoEvent) (e : GoEvent)
    (ht : validEventType e.eventType = false) :
    eventStoreInsert db e =
      .error ("new row violates check constraint chk_event_type") := by
  simp [eventStoreInsert, ht]

/-- C2: two ingest calls with the same idempotency key — both with a
storable event type and the first not clashing on the separate event_id
unique constraint — store at most one row (the colliding insert is the
ON CONFLICT no-op) and both succeed reporting stored=true.  Amended part:
the colliding call does NOT additionally report duplicate=true —
IngestResponse has no duplicate field, and the response of a colliding
ingest is identical to the response the same request would get on any
store where its insert goes through or is skipped (last conjunct), so the
collision is not reported at all. -/
theorem C2_ingest_idempotency (db : List GoEvent) (now1 now2 : Nat)
    (r1 r2 : IngestRequest)
    (h1a : r1.eventID ≠ "") (h1b : r1.idempotencyKey ≠ "")
    (h1c : r1.serviceID ≠ "") (h1d : r1.eventType ≠ "") (h1e : r1.payload ≠ "")
    (h2a : r2.eventID ≠ "") (h2b : r2.idempotencyKey ≠ "")
    (h2c : r2.serviceID ≠ "") (h2d : r2.eventType ≠ "") (h2e : r2.payload ≠ "")
    (hT1 : validEventType r1.eventType = true)
    (hT2 : validEventType r2.eventType = true)
    (hid : ∀ x ∈ db, x.eventID ≠ r1.eventID)
    (hkey : r1.idempotencyKey = r2.idempotencyKey)
    (hfresh : countKey db r1.idempotencyKey = 0) :
    ∃ db1 resp1 db2 resp2,
      ingest db now1 r1 = .ok (db1, resp1) ∧
      ingest db1 now2 r2 = .ok (db2, resp2) ∧
      countKey db2 r2.idempotencyKey = 1 ∧
      db2 = db1 ∧
      resp1.stored = true ∧ resp1.status = "accepted" ∧
      resp2.stored = true ∧ resp2.status = "accepted" ∧
      (∀ db' : List GoEvent,
        (db'.any (fun x => x.idempotencyKey = r2.idempotencyKey) = true ∨
          (∀ x ∈ db', x.eventID ≠ r2.eventID)) →
        (ingest db' now2 r2).map Prod.snd = .ok resp2) := by
  have hv1 := ingestValidate_ok_fields now1 r1 h1a h1b h1c h1d h1e
  have hv2 := ingestValidate_ok_fields now2 r2 h2a h2b h2c h2d h2e
  set n1 : IngestRequest :=
    if r1.timestamp = 0 then { r1 with timestamp := now1 } else r1 with hn1
  set n2 : IngestRequest :=
    if r2.timestamp = 0 then { r2 with timestamp := now2 } else r2 with hn2
  have hk1 : (mkEvent n1).idempotencyKey = r1.idempotencyKey := by
    rw [hn1]; split <;> rfl
  have hk2 : (mkEvent n2).idempotencyKey = r2.idempotencyKey := by
    rw [hn2]; split <;> rfl
  have hE1 : (mkEvent n1).eventID = r1.eventID := by
    rw [hn1]; split <;> rfl
  have hE2 : (mkEvent n2).eventID = r2.eventID := by
    rw [hn2]; split <;> rfl
  have hT1m : validEventType (mkEvent n1).eventType = true := by
    rw [hn1]
    split <;> exact hT1
  have hT2m : validEventType (mkEvent n2).eventType = true := by
    rw [hn2]
    split <;> exact hT2
  have hmem : ∀ x ∈ db, x.idempotencyKey ≠ r1.idempotencyKey := by
    intro x hx hk
    unfold countKey at hfresh
    rw [List.length_eq_zero] at hfresh
    have : x ∈ db.filter (fun e => e.idempotencyKey = r1.idempotencyKey) :=
      List.mem_filter.mpr ⟨hx, by simp [hk]⟩
    rw [hfresh] at this
    simp at this
  have hins1 : eventStoreInsert db (mkEvent n1) = .ok (db ++ [mkEvent n1]) := by
    refine eventStoreInsert_ok_fresh db (mkEvent n1) hT1m ?_ ?_
    · intro x hx
      rw [hk1]
      exact hmem x hx
    · intro x hx
      rw [hE1]
      exact hid x hx
  have hins2 : eventStoreInsert (db ++ [mkEvent n1]) (mkEvent n2) =
      .ok (db ++ [mkEvent n1]) := by
    refine eventStoreInsert_conflict _ _ hT2m ?_
    rw [List.any_eq_true]
    exact ⟨mkEvent n1, by simp, by simp [hk1, hk2, hkey]⟩
  have hcount : countKey (db ++ [mkEvent n1]) r2.idempotencyKey = 1 := by
    unfold countKey at hfresh ⊢
    rw [List.filter_append, List.length_append]
    have hbase : (db.filter (fun e => e.idempotencyKey = r2.idempotencyKey)).length = 0 := by
      rw [← hkey]
      exact hfresh
    rw [hbase]
    simp [hk1, hkey]
  refine ⟨db ++ [mkEvent n1],
    { eventID := n1.eventID, status := "accepted", stored := true,
      published := false, timestamp := now1 },
    db ++ [mkEvent n1],
    { eventID := n2.eventID, status := "accepted", stored := true,
      published := false, timestamp := now2 },
    ?_, ?_, hcount, rfl, rfl, rfl, rfl, rfl, ?_⟩
  · simp only [ingest, hv1, hins1]
  · simp only [ingest, hv2, hins2]
  · intro db' hg
    by_cases hany : db'.any (fun x => x.idempotencyKey = (mkEvent n2).idempotencyKey) = true
    · simp only [ingest, hv2,
        eventStoreInsert_conflict db' (mkEvent n2) hT2m hany, Except.map]
    · have hid' : ∀ x ∈ db', x.eventID ≠ (mkEvent n2).eventID := by
        rcases hg with hg | hg
        · exfalso
          apply hany
          rw [List.any_eq_true] at hg ⊢
          obtain ⟨x, hx, hxe⟩ := hg
          refine ⟨x, hx, ?_⟩
          rw [hk2]
          exact hxe
        · intro x hx
          rw [hE2]
          exact hg x hx
      have hkm : ∀ x ∈ db', x.idempotencyKey ≠ (mkEvent n2).idempotencyKey := by
        intro x hx he
        apply hany
        rw [List.any_eq_true]
        exact ⟨x, hx, by simp [he]⟩
      simp only [ingest, hv2,
        eventStoreInsert_ok_fresh db' (mkEvent n2) hT2m hkm hid', Except.map]

/-- Concrete colliding requests for C2: same idempotency key, different
event ids. -/
def reqC2a : IngestRequest :=
  { eventID := "e1", idempotencyKey := "k", serviceID := "svc",
    eventType := "metrics", payload := "x", timestamp := 1 }

def reqC2b : IngestRequest :=
  { eventID := "e2", idempotencyKey := "k", serviceID := "svc",
    eventType := "metrics", payload := "x", timestamp := 2 }

def evC2a : GoEvent :=
  { eventID := "e1", idempotencyKey := "k", serviceID := "svc",
    eventType := "metrics", payload := "x", timestamp := 1 }

def evC2b : GoEvent :=
  { eventID := "e2", idempotencyKey := "k", serviceID := "svc",
    eventType := "metrics", payload := "x", timestamp := 2 }

/-- C2 counterexample: the colliding second call (middle conjunct) returns
exactly the same response record as the same request ingested into an
empty store with no collision (last conjunct) — status accepted,
stored=true — and the response type carries no duplicate field, so the
claimed additional duplicate=true report does not exist.  The store keeps
the single first row. -/
theorem C2_counterexample :
    ingest [] 1 reqC2a = .ok ([evC2a],
      { eventID := "e1", status := "accepted", stored := true,
        published := false, timestamp := 1 }) ∧
    ingest [evC2a] 2 reqC2b = .ok ([evC2a],
      { eventID := "e2", status := "accepted", stored := true,
        published := false, timestamp := 2 }) ∧
    ingest [] 2 reqC2b = .ok ([evC2b],
      { eventID := "e2", status := "accepted", stored := true,
        published := false, timestamp := 2 }) := by
  refine ⟨by rfl, by rfl, by rfl⟩

/-! Event payload JSON-schema validation (unnamed part_008, package
validator).  A JSON object is a field list; the three compiled schemas are
embedded as boolean checkers.  NOTE: this validator is defined in the
repository but never invoked from the ingest path. -/

/-- JsonVal models a JSON scalar or nested value as the schema checks see
it; a number is a rational (an integer when its denominator is 1). -/
inductive JsonVal where
  | num (q : ℚ)
  | str (s : String)
  | boolVal (b : Bool)
  | obj
  | other
deriving DecidableEq, Repr

/-- isOkE projects an Except to its success flag. -/
def isOkE : Except ε α → Bool
  | .ok _ => true
  | .error _ => false

/-- propCheck: a JSON-schema property constraint applies only when the
property is present. -/
def propCheck (o : List (String × JsonVal)) (name : String) (check : JsonVal → Bool) : Bool :=
  match o.lookup name with
  | none => true
  | some v => check v

/-- requiredPresent: a required property must be present. -/
def requiredPresent (o : List (String × JsonVal)) (name : String) : Bool :=
  (o.lookup name).isSome

/-- numInRange is the schema fragment type number with minimum and
maximum. -/
def numInRange (lo hi : ℚ) : JsonVal → Bool
  | .num q => decide (lo ≤ q) && decide (q ≤ hi)
  | _ => false

/-- numAtLeast is the schema fragment type number with minimum. -/
def numAtLeast (lo : ℚ) : JsonVal → Bool
  | .num q => decide (lo ≤ q)
  | _ => false

/-- intAtLeast is the schema fragment type integer with minimum. -/
def intAtLeast (lo : ℚ) : JsonVal → Bool
  | .num q => decide (q.den = 1) && decide (lo ≤ q)
  | _ => false

/-- isStrVal is the schema fragment type string. -/
def isStrVal : JsonVal → Bool
  | .str _ => true
  | _ => false

/-- strIn is the schema fragment type string with an enum. -/
def strIn (allowed : List String) : JsonVal → Bool
  | .str s => allowed.contains s
  | _ => false

/-- strMinLen1 is the schema fragment type string with minLength 1. -/
def strMinLen1 : JsonVal → Bool
  | .str s => decide (1 ≤ s.length)
  | _ => false

/-- isObjVal is the schema fragment type object. -/
def isObjVal : JsonVal → Bool
  | .obj => true
  | _ => false

/-- metricsSchema from part_008: required cpu, latency_ms, error_rate,
requests_per_second; cpu in 0..100, latency_ms at least 0, error_rate in
0..1, requests_per_second at least 0, queue_depth an integer at least 0. -/
def metricsSchemaOk (o : List (String × JsonVal)) : Bool :=
  requiredPresent o ("cpu") && requiredPresent o ("latency_ms") &&
  requiredPresent o ("error_rate") && requiredPresent o ("requests_per_second") &&
  propCheck o ("cpu") (numInRange 0 100) &&
  propCheck o ("latency_ms") (numAtLeast 0) &&
  propCheck o ("error_rate") (numInRange 0 1) &&
  propCheck o ("requests_per_second") (numAtLeast 0) &&
  propCheck o ("queue_depth") (intAtLeast 0)

/-- alertSchema from part_008. -/
def alertSchemaOk (o : List (String × JsonVal)) : Bool :=
  requiredPresent o ("alert_type") && requiredPresent o ("severity") &&
  propCheck o ("alert_type") isStrVal &&
  propCheck o ("severity") (strIn ["low", "medium", "high", "critical"]) &&
  propCheck o ("message") isStrVal

/-- customSchema from part_008. -/
def customSchemaOk (o : List (String × JsonVal)) : Bool :=
  requiredPresent o ("event_name") &&
  propCheck o ("event_name") strMinLen1 &&
  propCheck o ("payload") isObjVal

/-- ValidateEvent from part_008: schemas exist only for the three closed
event types; any other type is an error (false). -/
def validateEvent (eventType : String) (o : List (String × JsonVal)) : Bool :=
  match eventType with
  | "metrics" => metricsSchemaOk o
  | "alert" => alertSchemaOk o
  | "custom" => customSchemaOk o
  | _ => false

lemma req_and_num_range_iff (o : List (String × JsonVal)) (name : String) (lo hi : ℚ) :
    (requiredPresent o name = true ∧ propCheck o name (numInRange lo hi) = true) ↔
    ∃ q, o.lookup name = some (.num q) ∧ lo ≤ q ∧ q ≤ hi := by
  cases h : o.lookup name with
  | none => simp [requiredPresent, propCheck, h]
  | some v => cases v <;> simp [requiredPresent, propCheck, h, numInRange]

lemma req_and_num_min_iff (o : List (String × JsonVal)) (name : String) (lo : ℚ) :
    (requiredPresent o name = true ∧ propCheck o name (numAtLeast lo) = true) ↔
    ∃ q, o.lookup name = some (.num q) ∧ lo ≤ q := by
  cases h : o.lookup name with
  | none => simp [requiredPresent, propCheck, h]
  | some v => cases v <;> simp [requiredPresent, propCheck, h, numAtLeast]

lemma optional_int_min_iff (o : List (String × JsonVal)) (name : String) (lo : ℚ) :
    propCheck o name (intAtLeast lo) = true ↔
    (o.lookup name = none ∨ ∃ q, o.lookup name = some (.num q) ∧ q.den = 1 ∧ lo ≤ q) := by
  cases h : o.lookup name with
  | none => simp [propCheck, h]
  | some v => cases v <;> simp [propCheck, h, intAtLeast]

/-- C3: validation of an ingested event.  Amended: ingest fails with a
Validation error exactly when a required field is empty (conjunct one,
with Validate checking nothing else).  An event_type outside the closed
set does make ingest fail at exactly that input, but with a storage error
— the events table's chk_event_type CHECK constraint propagated by Store
and wrapped with the store prefix — not a Validation error (conjunct
two).  The metrics numeric ranges are enforced nowhere on the ingest
path: the payload bytes are never parsed, so with a storable type and
fresh keys an ingest succeeds whatever the payload contains (conjunct
three); the claimed ranges and type closure are encoded only by the
standalone EventValidator.ValidateEvent of the validator package, which
no caller in the ingest path invokes (conjuncts four and five). -/
theorem C3_validation_closure :
    (∀ (now : Nat) (r : IngestRequest),
      isOkE (ingestValidate now r) = true ↔
        (r.eventID ≠ "" ∧ r.idempotencyKey ≠ "" ∧ r.serviceID ≠ "" ∧
          r.eventType ≠ "" ∧ r.payload ≠ "")) ∧
    (∀ (db : List GoEvent) (now : Nat) (r : IngestRequest),
      r.eventID ≠ "" → r.idempotencyKey ≠ "" → r.serviceID ≠ "" →
      r.eventType ≠ "" → r.payload ≠ "" →
      validEventType r.eventType = false →
      ingest db now r =
        .error ("failed to store event: " ++
          "new row violates check constraint chk_event_type")) ∧
    (∀ (db : List GoEvent) (now : Nat) (r : IngestRequest) (p : String),
      r.eventID ≠ "" → r.idempotencyKey ≠ "" → r.serviceID ≠ "" →
      r.eventType ≠ "" → p ≠ "" →
      validEventType r.eventType = true →
      (∀ x ∈ db, x.idempotencyKey ≠ r.idempotencyKey) →
      (∀ x ∈ db, x.eventID ≠ r.eventID) →
      isOkE (ingest db now { r with payload := p }) = true) ∧
    (∀ (t : String) (o : List (String × JsonVal)),
      t ≠ "metrics" → t ≠ "alert" → t ≠ "custom" → validateEvent t o = false) ∧
    (∀ o : List (String × JsonVal),
      validateEvent ("metrics") o = true ↔
        ((∃ q, o.lookup ("cpu") = some (.num q) ∧ 0 ≤ q ∧ q ≤ 100) ∧
         (∃ q, o.lookup ("latency_ms") = some (.num q) ∧ 0 ≤ q) ∧
         (∃ q, o.lookup ("error_rate") = some (.num q) ∧ 0 ≤ q ∧ q ≤ 1) ∧
         (∃ q, o.lookup ("requests_per_second") = some (.num q) ∧ 0 ≤ q) ∧
         (o.lookup ("queue_depth") = none ∨
           ∃ q, o.lookup ("queue_depth") = some (.num q) ∧ q.den = 1 ∧ 0 ≤ q))) := by
  refine ⟨?_, ?_, ?_, ?_, ?_⟩
  · intro now r
    constructor
    · intro h
      by_cases h1 : r.eventID = ""
      · simp [ingestValidate, h1, isOkE] at h
      · by_cases h2 : r.idempotencyKey = ""
        · simp [ingestValidate, h1, h2, isOkE] at h
        · by_cases h3 : r.serviceID = ""
          · simp [ingestValidate, h1, h2, h3, isOkE] at h
          · by_cases h4 : r.eventType = ""
            · simp [ingestValidate, h1, h2, h3, h4, isOkE] at h
            · by_cases h5 : r.payload = ""
              · simp [ingestValidate, h1, h2, h3, h4, h5, isOkE] at h
              · exact ⟨h1, h2, h3, h4, h5⟩
    · rintro ⟨h1, h2, h3, h4, h5⟩
      rw [ingestValidate_ok_fields now r h1 h2 h3 h4 h5]
      rfl
  · intro db now r h1 h2 h3 h4 h5 hbad
    have hv := ingestValidate_ok_fields now r h1 h2 h3 h4 h5
    set n : IngestRequest :=
      if r.timestamp = 0 then { r with timestamp := now } else r with hn
    have hT : validEventType (mkEvent n).eventType = false := by
      rw [hn]
      split <;> exact hbad
    simp only [ingest, hv, eventStoreInsert_badtype db (mkEvent n) hT]
  · intro db now r p h1 h2 h3 h4 hp ht hk hi
    have hv := ingestValidate_ok_fields now { r with payload := p } h1 h2 h3 h4 hp
    set np : IngestRequest :=
      if ({ r with payload := p } : IngestRequest).timestamp = 0 then
        { { r with payload := p } with timestamp := now }
      else { r with payload := p } with hnp
    have hTn : validEventType (mkEvent np).eventType = true := by
      rw [hnp]
      split <;> exact ht
    have hKn : ∀ x ∈ db, x.idempotencyKey ≠ (mkEvent np).idempotencyKey := by
      intro x hx
      have hKe : (mkEvent np).idempotencyKey = r.idempotencyKey := by
        rw [hnp]; split <;> rfl
      rw [hKe]
      exact hk x hx
    have hIn : ∀ x ∈ db, x.eventID ≠ (mkEvent np).eventID := by
      intro x hx
      have hIe : (mkEvent np).eventID = r.eventID := by
        rw [hnp]; split <;> rfl
      rw [hIe]
      exact hi x hx
    simp only [ingest, hv, eventStoreInsert_ok_fresh db (mkEvent np) hTn hKn hIn]
    rfl
  · intro t o h1 h2 h3
    unfold validateEvent
    split <;> simp_all
  · intro o
    have hsplit : validateEvent ("metrics") o = true ↔
        ((requiredPresent o ("cpu") = true ∧ propCheck o ("cpu") (numInRange 0 100) = true) ∧
         (requiredPresent o ("latency_ms") = true ∧
           propCheck o ("latency_ms") (numAtLeast 0) = true) ∧
         (requiredPresent o ("error_rate") = true ∧
           propCheck o ("error_rate") (numInRange 0 1) = true) ∧
         (requiredPresent o ("requests_per_second") = true ∧
           propCheck o ("requests_per_second") (numAtLeast 0) = true) ∧
         propCheck o ("queue_depth") (intAtLeast 0) = true) := by
      unfold validateEvent metricsSchemaOk
      simp only [Bool.and_eq_true]
      tauto
    rw [hsplit, req_and_num_range_iff, req_and_num_min_iff, req_and_num_range_iff,
      req_and_num_min_iff, optional_int_min_iff]

/-- Concrete request with an event type outside the closed set but all
fields non-empty. -/
def reqC3 : IngestRequest :=
  { eventID := "e", idempotencyKey := "k", serviceID := "s",
    eventType := "bogus", payload := "x", timestamp := 1 }

/-- Concrete metrics request whose payload stands for an out-of-range
metrics JSON body (cpu 150, above the claimed 0..100 range); the ingest
path never parses the bytes. -/
def reqC3m : IngestRequest :=
  { eventID := "e2", idempotencyKey := "k2", serviceID := "s",
    eventType := "metrics", payload := "cpu:150", timestamp := 1 }

/-- C3 counterexample: the claim says the closed event-type set AND the
metric ranges are both enforced on ingest as Validation errors.  Half
fails one way: event_type bogus does make ingest fail, but with a storage
error from the chk_event_type CHECK constraint, not a Validation error.
The other half fails outright: an out-of-range metrics payload ingests
successfully since the payload bytes are never parsed. -/
theorem C3_counterexample :
    reqC3.eventType = "bogus" ∧
    ingest [] 1 reqC3 =
      .error ("failed to store event: " ++
        "new row violates check constraint chk_event_type") ∧
    isOkE (ingest [] 1 reqC3m) = true := by
  exact ⟨rfl, rfl, rfl⟩

/-- C3 witness: the amended theorem applied at concrete inputs — the
bogus type passes Validate but dies on the CHECK constraint as a store
error, the out-of-range metrics payload ingests fine, and the uninvoked
validator rejects an unknown type while enforcing the metric ranges. -/
theorem C3_witness :
    isOkE (ingestValidate 1 reqC3) = true ∧
    ingest [] 1 reqC3 =
      .error ("failed to store event: " ++
        "new row violates check constraint chk_event_type") ∧
    isOkE (ingest [] 1 reqC3m) = true ∧
    validateEvent ("bogus") [] = false ∧
    validateEvent ("metrics")
      [("cpu", JsonVal.num 50), ("latency_ms", JsonVal.num 1),
       ("error_rate", JsonVal.num 0), ("requests_per_second", JsonVal.num 1)] = true := by
  have h := C3_validation_closure
  refine ⟨?_, ?_, ?_, ?_, ?_⟩
  · exact (h.1 1 reqC3).mpr
      ⟨by decide, by decide, by decide, by decide, by decide⟩
  · exact h.2.1 [] 1 reqC3
      (by decide) (by decide) (by decide) (by decide) (by decide) (by decide)
  · exact h.2.2.1 [] 1 reqC3m ("cpu:150")
      (by decide) (by decide) (by decide) (by decide) (by decide) (by decide)
      (by simp) (by simp)
  · exact h.2.2.2.1 ("bogus") [] (by decide) (by decide) (by decide)
  · exact (h.2.2.2.2 _).mpr
      ⟨⟨50, rfl, by decide, by decide⟩, ⟨1, rfl, by decide⟩,
        ⟨0, rfl, by decide, by decide⟩, ⟨1, rfl, by decide⟩, Or.inl rfl⟩

/-- C2 witness: the amended theorem applied to the two concrete colliding
requests on the empty store. -/
theorem C2_witness :
    ∃ db1 resp1 db2 resp2,
      ingest [] 1 reqC2a = .ok (db1, resp1) ∧
      ingest db1 2 reqC2b = .ok (db2, resp2) ∧
      countKey db2 reqC2b.idempotencyKey = 1 ∧
      db2 = db1 ∧
      resp1.stored = true ∧ resp1.status = "accepted" ∧
      resp2.stored = true ∧ resp2.status = "accepted" ∧
      (∀ db' : List GoEvent,
        (db'.any (fun x => x.idempotencyKey = reqC2b.idempotencyKey) = true ∨
          (∀ x ∈ db', x.eventID ≠ reqC2b.eventID)) →
        (ingest db' 2 reqC2b).map Prod.snd = .ok resp2) := by
  exact C2_ingest_idempotency [] 1 2 reqC2a reqC2b
    (by decide) (by decide) (by decide) (by decide) (by decide)
    (by decide) (by decide) (by decide) (by decide) (by decide)
    (by decide) (by decide) (by simp) (by decide) (by decide)

/-! Decision making (decision/service.go, decision_store.go).  The
decision_records table is a list; the insert with ON CONFLICT
(idempotency_key) DO NOTHING drops the conflicting row silently.  The
wall-clock-generated decision and trace ids are explicit parameters. -/

/-- Action from models/decision.go (payload kept opaque). -/
structure DecAction where
  type : String := ""
  payload : String := ""
  target : String := ""
  cost : ℚ := 0
  risk : ℚ := 0
deriving DecidableEq, Repr

/-- DecisionRecord from models/decision.go (actions embedded directly
rather than as marshalled JSON; DB surrogate fields omitted). -/
structure DecisionRecord where
  decisionID : String := ""
  idempotencyKey : String := ""
  serviceID : String := ""
  policyID : String := ""
  policyVersion : String := ""
  snapshotID : String := ""
  decisionType : String := ""
  decisionResult : String := ""
  actions : List DecAction := []
  confidenceScore : ℚ := 0
  dryRun : Bool := false
deriving DecidableEq, Repr

/-- DecisionRequest from models/decision.go. -/
structure DecisionRequest where
  serviceID : String := ""
  decisionType : String := ""
  features : ServiceFeatures := {}
  dryRun : Bool := false
  simulate : Bool := false
  idempotencyKey : String := ""
deriving DecidableEq, Repr

/-- DecisionResponse from models/decision.go. -/
structure DecisionResponse where
  decisionID : String := ""
  decisionResult : String := ""
  actions : List DecAction := []
  confidence : ℚ := 0
  traceID : String := ""
  dryRun : Bool := false
deriving DecidableEq, Repr

/-- getActionCost from decision/service.go: linear scan for the rule. -/
def getActionCost (pol : Policy) (ruleID : String) : ℚ :=
  match pol.rules.find? (fun r => r.id = ruleID) with
  | some r => r.action.cost
  | none => 0

/-- getActionRisk from decision/service.go. -/
def getActionRisk (pol : Policy) (ruleID : String) : ℚ :=
  match pol.rules.find? (fun r => r.id = ruleID) with
  | some r => r.action.risk
  | none => 0

/-- Store from decision_store.go: INSERT ... ON CONFLICT (idempotency_key)
DO NOTHING, no error either way. -/
def decisionStoreInsert (db : List DecisionRecord) (d : DecisionRecord) :
    List DecisionRecord :=
  if db.any (fun x => x.idempotencyKey = d.idempotencyKey) then db
  else db ++ [d]

/-- Mapping of the matched action to the decision result in
MakeDecision. -/
def mapDecisionResult (matched : Bool) (action : String) : String :=
  if matched then
    match action with
    | "scale_up" => "allow"
    | "scale_down" => "allow"
    | "throttle" => "throttle"
    | "open_circuit" => "deny"
    | _ => "allow"
  else ("allow")

/-- decActionsOf: the action list MakeDecision builds from the evaluation
result. -/
def decActionsOf (req : DecisionRequest) (pol : Policy) : List DecAction :=
  let result := (evaluate pol req.features).1
  if result.matched && !(result.action = "") then
    [{ type := result.action, payload := result.actionPayload,
       target := req.serviceID, cost := getActionCost pol result.ruleID,
       risk := getActionRisk pol result.ruleID }]
  else []

/-- decRecordOf: the DecisionRecord MakeDecision persists (the stored
confidence defaults to 0.8 when the evaluation confidence is not
positive). -/
def decRecordOf (decisionID : String) (req : DecisionRequest) (pol : Policy) :
    DecisionRecord :=
  let result := (evaluate pol req.features).1
  { decisionID := decisionID, idempotencyKey := req.idempotencyKey,
    serviceID := req.serviceID, policyID := pol.id,
    policyVersion := pol.version,
    snapshotID := req.features.serviceID ++ "-snap",
    decisionType := pol.ptype,
    decisionResult := mapDecisionResult result.matched result.action,
    actions := decActionsOf req pol,
    confidenceScore := if result.confidence > 0 then result.confidence else 8/10,
    dryRun := req.dryRun }

/-- decResponseOf: the DecisionResponse MakeDecision returns (it carries
the raw evaluation confidence and its own freshly generated decision and
trace ids, never anything read back from the store). -/
def decResponseOf (decisionID traceID : String) (req : DecisionRequest)
    (pol : Policy) : DecisionResponse :=
  let result := (evaluate pol req.features).1
  { decisionID := decisionID,
    decisionResult := mapDecisionResult result.matched result.action,
    actions := decActionsOf req pol,
    confidence := result.confidence,
    traceID := traceID, dryRun := req.dryRun }

/-- MakeDecision from decision/service.go: evaluate the policy, build the
record and response, store the record (the conflicting insert is silently
dropped) and return the response.  The trace store is irrelevant to the
claims. -/
def makeDecision (db : List DecisionRecord) (decisionID traceID : String)
    (req : DecisionRequest) (pol : Policy) :
    List DecisionRecord × DecisionResponse :=
  (decisionStoreInsert db (decRecordOf decisionID req pol),
    decResponseOf decisionID traceID req pol)

/-- countKeyD counts decision records by idempotency key. -/
def countKeyD (db : List DecisionRecord) (key : String) : Nat :=
  (db.filter (fun d => d.idempotencyKey = key)).length

/-- C5: two MakeDecision calls with the same idempotency key persist at
most one DecisionRecord (the unique key makes the losing insert a no-op).
Amended part: the losing (second) call does NOT return the first call's
winning record — it returns its own freshly computed response carrying its
own newly generated decision id (id2), while the only record stored under
the key keeps the winner's id (id1); nothing is read back from the store
on conflict. -/
theorem C5_decision_idempotency (db : List DecisionRecord)
    (id1 tr1 id2 tr2 : String) (req1 req2 : DecisionRequest) (pol : Policy)
    (hkey : req1.idempotencyKey = req2.idempotencyKey)
    (hfresh : countKeyD db req1.idempotencyKey = 0) :
    ∃ db1 resp1 db2 resp2,
      makeDecision db id1 tr1 req1 pol = (db1, resp1) ∧
      makeDecision db1 id2 tr2 req2 pol = (db2, resp2) ∧
      db2 = db1 ∧
      countKeyD db2 req2.idempotencyKey = 1 ∧
      (∀ d ∈ db2, d.idempotencyKey = req2.idempotencyKey → d.decisionID = id1) ∧
      resp1.decisionID = id1 ∧
      resp2.decisionID = id2 := by
  have hmem : ∀ d ∈ db, d.idempotencyKey ≠ req1.idempotencyKey := by
    intro d hd hk
    unfold countKeyD at hfresh
    rw [List.length_eq_zero] at hfresh
    have : d ∈ db.filter (fun e => e.idempotencyKey = req1.idempotencyKey) :=
      List.mem_filter.mpr ⟨hd, by simp [hk]⟩
    rw [hfresh] at this
    simp at this
  have hrk1 : (decRecordOf id1 req1 pol).idempotencyKey = req1.idempotencyKey := rfl
  have hins1 : decisionStoreInsert db (decRecordOf id1 req1 pol) =
      db ++ [decRecordOf id1 req1 pol] := by
    unfold decisionStoreInsert
    rw [if_neg]
    intro hany
    rw [List.any_eq_true] at hany
    obtain ⟨x, hx, hxk⟩ := hany
    exact hmem x hx (by simpa [hrk1] using hxk)
  have hins2 : decisionStoreInsert (db ++ [decRecordOf id1 req1 pol])
      (decRecordOf id2 req2 pol) = db ++ [decRecordOf id1 req1 pol] := by
    unfold decisionStoreInsert
    rw [if_pos]
    rw [List.any_eq_true]
    exact ⟨decRecordOf id1 req1 pol, by simp, by simp [decRecordOf, hkey]⟩
  refine ⟨db ++ [decRecordOf id1 req1 pol], decResponseOf id1 tr1 req1 pol,
    db ++ [decRecordOf id1 req1 pol], decResponseOf id2 tr2 req2 pol,
    ?_, ?_, rfl, ?_, ?_, rfl, rfl⟩
  · unfold makeDecision
    rw [hins1]
  · unfold makeDecision
    rw [hins2]
  · unfold countKeyD
    rw [List.filter_append, List.length_append]
    have hbase : (db.filter (fun d => d.idempotencyKey = req2.idempotencyKey)).length = 0 := by
      unfold countKeyD at hfresh
      rw [← hkey]
      exact hfresh
    rw [hbase]
    simp [decRecordOf, hkey]
  · intro d hd hk
    rcases List.mem_append.mp hd with hdb | hone
    · exact absurd (hkey ▸ hk) (hmem d hdb)
    · rw [List.mem_singleton] at hone
      subst hone
      rfl

/-- Concrete request and policy for C5: one always-matching scale_up
rule. -/
def reqC5 : DecisionRequest := { serviceID := "svc", idempotencyKey := "k" }

def polC5 : Policy :=
  { id := "p", version := "1", ptype := "autoscale", rules := [ruleC1A] }

/-- C5 counterexample: after a first call stored the record with decision
id dec-1, the second call with the same idempotency key leaves the store
unchanged (the winning record keeps id dec-1) yet answers with its own
fresh response whose decision id is dec-2 — it does not return the first
call's winning record as the claim states. -/
theorem C5_counterexample :
    ((makeDecision [] "dec-1" "tr-1" reqC5 polC5).1.map (fun d => d.decisionID))
      = ["dec-1"] ∧
    ((makeDecision (makeDecision [] "dec-1" "tr-1" reqC5 polC5).1
        "dec-2" "tr-2" reqC5 polC5).1.map (fun d => d.decisionID)) = ["dec-1"] ∧
    ((makeDecision (makeDecision [] "dec-1" "tr-1" reqC5 polC5).1
        "dec-2" "tr-2" reqC5 polC5).2).decisionID = "dec-2" := by
  exact ⟨rfl, rfl, rfl⟩

/-- C5 witness: the amended theorem applied to the concrete request on the
empty store. -/
theorem C5_witness :
    ∃ db1 resp1 db2 resp2,
      makeDecision [] "dec-1" "tr-1" reqC5 polC5 = (db1, resp1) ∧
      makeDecision db1 ("dec-2") ("tr-2") reqC5 polC5 = (db2, resp2) ∧
      db2 = db1 ∧
      countKeyD db2 reqC5.idempotencyKey = 1 ∧
      (∀ d ∈ db2, d.idempotencyKey = reqC5.idempotencyKey → d.decisionID = "dec-1") ∧
      resp1.decisionID = "dec-1" ∧
      resp2.decisionID = "dec-2" :=
  C5_decision_idempotency [] "dec-1" "tr-1" "dec-2" "tr-2" reqC5 reqC5 polC5
    rfl (by decide)

/-! Feature derivation (cache/redis.go, package state,
calculateFeaturesFromEvents) fed by GetByService (event_store.go), whose
query orders events by timestamp DESCENDING — most recent first — and
whose output is passed to the builder unreversed. -/

/-- MetricsPayload from models/event.go. -/
structure MetricsPayload where
  cpu : ℚ := 0
  latency : ℚ := 0
  errorRate : ℚ := 0
  requestsPerSec : ℚ := 0
  queueDepth : ℤ := 0
deriving DecidableEq, Repr

/-- MEvent is an event row as the feature builder sees it: its type and
the outcome of GetMetricsPayload (none when the payload does not
unmarshal). -/
structure MEvent where
  eventID : String := ""
  eventType : String := ""
  metrics : Option MetricsPayload := none
  timestamp : Nat := 0
deriving DecidableEq, Repr

/-- The extraction loop of calculateFeaturesFromEvents: keep the metrics
payloads of the metrics-typed events whose payload parses, in the order
the events were given. -/
def extractMetrics (events : List MEvent) : List MetricsPayload :=
  events.filterMap (fun e => if e.eventType = "metrics" then e.metrics else none)

/-- percentile from cache/redis.go: ascending exchange sort, then linear
interpolation at index (n-1)p (math.Floor and math.Ceil; int truncation of
the nonnegative index is the floor). -/
def percentile (l : List ℚ) (p : ℚ) : ℚ :=
  if l.length = 0 then 0
  else
    let values := goSwapSort (fun a b => a > b) l
    let k : ℚ := ((l.length : ℚ) - 1) * p
    let f : ℤ := ⌊k⌋
    let c : ℤ := ⌈k⌉
    if f = c then values.getD (⌊k⌋).toNat 0
    else values.getD f.toNat 0 * ((c : ℚ) - k) + values.getD c.toNat 0 * (k - (f : ℚ))

/-- calculateEMA from cache/redis.go: seeded on the FIRST element of the
list it is given. -/
def calculateEMA (values : List ℚ) (alpha : ℚ) : ℚ :=
  match values with
  | [] => 0
  | v :: rest => rest.foldl (fun ema x => alpha * x + (1 - alpha) * ema) v

/-- calculateTrend from cache/redis.go (float truncation of n times 0.2
and 0.8 modelled with the exact rational floor; no claim exercises values
where binary rounding of the float products could differ). -/
def calculateTrend (values : List ℚ) : String :=
  if values.length < 2 then ("stable")
  else
    let n := values.length
    let startIdx0 : Nat := (⌊(n : ℚ) * (2/10)⌋).toNat
    let endIdx0 : Nat := (⌊(n : ℚ) * (8/10)⌋).toNat
    let startIdx := if startIdx0 = 0 then 1 else startIdx0
    let endIdx := if endIdx0 ≥ n then n - 1 else endIdx0
    let startSum := ((values.take startIdx).foldl (fun a b => a + b) 0)
    let endSum := ((values.drop endIdx).foldl (fun a b => a + b) 0)
    let startAvg := startSum / (startIdx : ℚ)
    let endAvg := endSum / ((n - endIdx : Nat) : ℚ)
    let diff := (endAvg - startAvg) / startAvg
    if diff > 1/10 then ("increasing")
    else if diff < -(1/10) then ("decreasing")
    else ("stable")

/-- calculateFeaturesFromEvents from cache/redis.go: aggregates over the
metric payloads IN THE ORDER GIVEN (no reversal), so with the
most-recent-first store order the last element — the source of CPUCurrent
and QueueDepth — is the OLDEST sample and the EMA seed is the newest.
(The Go code also accumulates a latency sum it never reads; it is dropped
here.) -/
def calculateFeaturesFromEvents (serviceID : String) (events : List MEvent) :
    Except String ServiceFeatures :=
  let metricsList := extractMetrics events
  if metricsList.length = 0 then .error ("no metrics events found")
  else
    let n : ℚ := metricsList.length
    let cpuValues := metricsList.map (fun m => m.cpu)
    let latencyValues := metricsList.map (fun m => m.latency)
    let cpuSum := cpuValues.foldl (fun a b => a + b) 0
    let errorRateSum := (metricsList.map (fun m => m.errorRate)).foldl (fun a b => a + b) 0
    let rpsSum := (metricsList.map (fun m => m.requestsPerSec)).foldl (fun a b => a + b) 0
    let queueSum : ℤ := (metricsList.map (fun m => m.queueDepth)).foldl (fun a b => a + b) 0
    let lastPayload := metricsList.getLastD {}
    let cpuCurrent := lastPayload.cpu
    let errorRate := errorRateSum / n
    let queueAvg := (queueSum : ℚ) / n
    let latencyP95 := percentile latencyValues (95/100)
    .ok
      { serviceID := serviceID
        cpuCurrent := cpuCurrent
        cpuAvg5m := cpuSum / n
        latencyP50 := percentile latencyValues (5/10)
        latencyP95 := latencyP95
        latencyP99 := percentile latencyValues (99/100)
        errorRate := errorRate
        requestsPerSec := rpsSum / n
        queueDepth := lastPayload.queueDepth
        queueDepthAvg5m := queueAvg
        cpuEMA := calculateEMA cpuValues (3/10)
        latencyEMA := calculateEMA latencyValues (3/10)
        cpuTrend := calculateTrend cpuValues
        requestsTrend := calculateTrend (metricsList.map (fun m => m.requestsPerSec))
        loadScore := min 1 (cpuCurrent/100 * (5/10) + queueAvg/100 * (3/10) + errorRate * (2/10))
        healthScore := max 0 (1 - errorRate * 2 - cpuCurrent/200)
        throttlingRisk :=
          if cpuCurrent > 70 ∧ latencyP95 > 500 then
            min 1 ((cpuCurrent - 70)/30 * (7/10) + (latencyP95 - 500)/500 * (3/10))
          else 0 }

/-- Concrete most-recent-first window for C4: the newer sample (timestamp
2) has cpu 90 and queue depth 7, the older (timestamp 1) cpu 10 and queue
depth 3; GetByService returns them newest first. -/
def evC4new : MEvent :=
  { eventID := "n", eventType := "metrics", timestamp := 2,
    metrics := some { cpu := 90, latency := 100, errorRate := 0, requestsPerSec := 1, queueDepth := 7 } }

def evC4old : MEvent :=
  { eventID := "o", eventType := "metrics", timestamp := 1,
    metrics := some { cpu := 10, latency := 50, errorRate := 0, requestsPerSec := 1, queueDepth := 3 } }

/-- C4: the builder receives the window most-recent first (GetByService
orders timestamp DESC) and never reverses it, so on the concrete window
above the code assigns cpu_current = 10 and queue_depth = 3 — the OLDEST
sample's values, not the most recent sample's (cpu 90, queue 7) as the
claim and the spec state — and seeds the EMA on the newest sample
(0.3 times 10 plus 0.7 times 90 = 66) instead of the chronologically
first one (which would give 0.3 times 90 plus 0.7 times 10 = 34). -/
theorem C4_feature_order_bug :
    ((calculateFeaturesFromEvents ("svc") [evC4new, evC4old]).toOption.map
      (fun f => f.cpuCurrent)) = some 10 ∧
    ((calculateFeaturesFromEvents ("svc") [evC4new, evC4old]).toOption.map
      (fun f => f.queueDepth)) = some 3 ∧
    ((calculateFeaturesFromEvents ("svc") [evC4new, evC4old]).toOption.map
      (fun f => f.cpuEMA)) = some 66 ∧
    ([evC4new, evC4old].head?.bind (fun e => e.metrics.map (fun m => m.cpu)))
      = some 90 ∧
    (3/10 : ℚ) * 90 + (1 - 3/10) * 10 = 34 := by
  refine ⟨by decide, by decide, by decide, by decide, by decide⟩

/-! Monte Carlo simulation (simulation/service.go).  The Go code draws
from the package-global math/rand PRNG, seeded once in NewService with the
wall clock; here the global PRNG is a stream u of Uniform(0,1) values with
an index threaded in call order (five draws per projected minute: cpu
noise, error noise, latency noise, p50, p95), and a run consumes
iterations times 5 times horizon successive values. -/

/-- shiftStream advances the global PRNG stream by n consumed draws. -/
def shiftStream (n : Nat) (u : Nat → ℚ) : Nat → ℚ :=
  fun k => u (n + k)

/-- Scenario parameters of projectState: cpu trend, error trend, noise. -/
def scenarioParams (sc : String) : ℚ × ℚ × ℚ :=
  match sc with
  | "high_load" => (3/100, 0, 15/100)
  | "failure" => (0, 2/100, 2/10)
  | "recovery" => (-(2/100), 0, 8/100)
  | _ => (0, 0, 1/10)

/-- ProjectedState from simulation/service.go. -/
structure ProjectedState where
  minute : Nat := 0
  cpuAvg : ℚ := 0
  cpuP50 : ℚ := 0
  cpuP95 : ℚ := 0
  latencyAvg : ℚ := 0
  errorRate : ℚ := 0
deriving DecidableEq, Repr

/-- SimulationAggregates from simulation/service.go. -/
structure SimulationAggregates where
  probabilityOverload : ℚ := 0
  probabilityHighLatency : ℚ := 0
  probabilityErrorSpike : ℚ := 0
  expectedCost : ℚ := 0
  worstCaseCost : ℚ := 0
  bestCaseCost : ℚ := 0
deriving DecidableEq, Repr

/-- The per-minute loop of projectState: cpu evolves on the old cpu, the
error rate on the old error rate, the latency on the NEW (still unclamped)
cpu; then the clamps, then the state record with its two fresh percentile
draws. -/
def projectLoop (u : Nat → ℚ) (cpuTrend errorTrend noise : ℚ) :
    Nat → Nat → ℚ → ℚ → ℚ → List ProjectedState
  | 0, _, _, _, _ => []
  | steps + 1, minute, cpu, errorRate, latency =>
      let cpu1 := cpu * (1 + cpuTrend + noise * (u 0 - 1/2))
      let errorRate1 := min 1 (errorRate * (1 + errorTrend + noise * (u 1 - 1/2)))
      let latency1 := latency * (1 + (cpu1 - 50)/200 + noise * (u 2 - 1/2))
      let cpu2 := max 0 (min 100 cpu1)
      let errorRate2 := max 0 (min 1 errorRate1)
      let latency2 := max 0 latency1
      { minute := minute, cpuAvg := cpu2,
        cpuP50 := cpu2 * (9/10 + 2/10 * u 3),
        cpuP95 := cpu2 * (11/10 + 3/10 * u 4),
        latencyAvg := latency2, errorRate := errorRate2 } ::
        projectLoop (shiftStream 5 u) cpuTrend errorTrend noise steps (minute + 1)
          cpu2 errorRate2 latency2

/-- projectState from simulation/service.go: start from the current
features (cpu current, latency p95, error rate) and roll minute 1 through
horizon. -/
def projectState (u : Nat → ℚ) (current : ServiceFeatures) (horizon : Nat)
    (sc : String) : List ProjectedState :=
  let ps := scenarioParams sc
  projectLoop u ps.1 ps.2.1 ps.2.2 horizon 1
    current.cpuCurrent current.errorRate current.latencyP95

/-- The Monte Carlo iteration loop of Run: each iteration consumes the
next 5 times horizon draws of the one global stream. -/
def runProjections (u : Nat → ℚ) (current : ServiceFeatures) (horizon : Nat)
    (sc : String) : Nat → List (List ProjectedState)
  | 0 => []
  | n + 1 =>
      projectState u current horizon sc ::
        runProjections (shiftStream (5 * horizon) u) current horizon sc n

/-- aggregateProjections from simulation/service.go (an iteration shorter
than the minute index contributes nothing; p50 and p95 stay zero). -/
def aggregateProjections (projections : List (List ProjectedState))
    (horizon : Nat) : List ProjectedState :=
  (List.range horizon).map (fun minute =>
    let n : ℚ := projections.length
    let cpuSum := (projections.map (fun proj => (proj.getD minute {}).cpuAvg)).foldl (fun a b => a + b) 0
    let latencySum := (projections.map (fun proj => (proj.getD minute {}).latencyAvg)).foldl (fun a b => a + b) 0
    let errorSum := (projections.map (fun proj => (proj.getD minute {}).errorRate)).foldl (fun a b => a + b) 0
    { minute := minute + 1, cpuAvg := cpuSum / n,
      latencyAvg := latencySum / n, errorRate := errorSum / n })

/-- Cost of one iteration in calculateAggregates. -/
def projCost (proj : List ProjectedState) : ℚ :=
  (proj.map (fun st => 1/10 + st.cpuAvg/100 * (5/10))).foldl (fun a b => a + b) 0

/-- math.MaxFloat64, the initial minimum cost. -/
def maxFloat64 : ℚ := 2 ^ 1024 - 2 ^ 971

/-- calculateAggregates from simulation/service.go. -/
def calculateAggregates (projections : List (List ProjectedState)) :
    SimulationAggregates :=
  let n : ℚ := projections.length
  let overloadCount := (projections.filter
    (fun proj => proj.any (fun st => st.cpuAvg > 90))).length
  let highLatencyCount := (projections.filter
    (fun proj => proj.any (fun st => st.latencyAvg > 1000))).length
  let errorSpikeCount := (projections.filter
    (fun proj => proj.any (fun st => st.errorRate > 1/10))).length
  let costs := projections.map projCost
  let totalCost := costs.foldl (fun a b => a + b) 0
  let minCost := costs.foldl (fun a b => if b < a then b else a) maxFloat64
  let maxCost := costs.foldl (fun a b => if b > a then b else a) 0
  { probabilityOverload := (overloadCount : ℚ) / n,
    probabilityHighLatency := (highLatencyCount : ℚ) / n,
    probabilityErrorSpike := (errorSpikeCount : ℚ) / n,
    expectedCost := totalCost / n,
    bestCaseCost := minCost,
    worstCaseCost := maxCost }

/-- calculateCostProjection from simulation/service.go. -/
def calculateCostProjection (agg : SimulationAggregates) (sc : String) : ℚ :=
  match sc with
  | "high_load" => agg.expectedCost * (15/10)
  | "failure" => agg.expectedCost * 2
  | "recovery" => agg.expectedCost * (8/10)
  | _ => agg.expectedCost

/-- calculateRiskScore from simulation/service.go. -/
def calculateRiskScore (agg : SimulationAggregates) : ℚ :=
  min 1 (agg.probabilityOverload * (4/10) +
    agg.probabilityHighLatency * (3/10) + agg.probabilityErrorSpike * (3/10))

/-- generateRecommendation from simulation/service.go. -/
def generateRecommendation (risk : ℚ) : String :=
  if risk > 7/10 then ("scale_up_immediate")
  else if risk > 5/10 then ("scale_up_prepare")
  else if risk > 3/10 then ("monitor_closely")
  else ("maintain")

/-- calculateConfidence from simulation/service.go. -/
def simConfidence (iterations : Int) : ℚ :=
  min (95/100) (1/2 + (iterations : ℚ) / 20000)

/-- SimulationRequest from simulation/service.go.  It has NO seed field;
the scenario string is named scenKind here. -/
structure SimulationRequest where
  serviceID : String := ""
  policyID : String := ""
  policyVersion : String := ""
  snapshotID : String := ""
  scenKind : String := ""
  horizonMinutes : Int := 0
  iterations : Int := 0
  currentState : Option ServiceFeatures := none
deriving DecidableEq, Repr

/-- Validate from simulation/service.go: only service_id and
current_state can fail it; out-of-range horizon is silently replaced by
10, too-small iterations by 1000, an empty scenario by normal. -/
def simValidate (r : SimulationRequest) : Except String SimulationRequest :=
  if r.serviceID = "" then .error ("service_id is required")
  else if r.currentState.isNone then .error ("current_state is required")
  else
    let r1 := if r.horizonMinutes < 5 || r.horizonMinutes > 15 then
      { r with horizonMinutes := 10 } else r
    let r2 := if r1.iterations < 100 then { r1 with iterations := 1000 } else r1
    let r3 := if r2.scenKind = "" then { r2 with scenKind := "normal" } else r2
    .ok r3

/-- SimulationResult from simulation/service.go (wall-clock start and
completion stamps omitted; the run id is a parameter). -/
structure SimulationResult where
  runID : String := ""
  status : String := ""
  scenKind : String := ""
  horizonMinutes : Int := 0
  iterations : Int := 0
  projectedStates : List ProjectedState := []
  aggregates : SimulationAggregates := {}
  costProjection : ℚ := 0
  riskScore : ℚ := 0
  recommendation : String := ""
  confidence : ℚ := 0
deriving DecidableEq, Repr

/-- Run from simulation/service.go, reading the global PRNG stream u. -/
def simRun (u : Nat → ℚ) (runID : String) (req : SimulationRequest) :
    Except String SimulationResult :=
  match simValidate req with
  | .error e => .error ("validation failed: " ++ e)
  | .ok r =>
      let cur := r.currentState.getD {}
      let h : Nat := r.horizonMinutes.toNat
      let iters : Nat := r.iterations.toNat
      let projections := runProjections u cur h r.scenKind iters
      let agg := calculateAggregates projections
      let risk := calculateRiskScore agg
      .ok { runID := runID, status := "completed", scenKind := r.scenKind,
            horizonMinutes := r.horizonMinutes, iterations := r.iterations,
            projectedStates := aggregateProjections projections h,
            aggregates := agg,
            costProjection := calculateCostProjection agg r.scenKind,
            riskScore := risk,
            recommendation := generateRecommendation risk,
            confidence := simConfidence r.iterations }

/-- Draws one Run consumes from the global stream (zero when validation
rejects the request). -/
def simConsumption (req : SimulationRequest) : Nat :=
  match simValidate req with
  | .error _ => 0
  | .ok r => r.iterations.toNat * (5 * r.horizonMinutes.toNat)

/-- Two successive Run calls on the same service share the one global
PRNG: the second reads the stream where the first left off. -/
def simRunTwice (u : Nat → ℚ) (id1 id2 : String) (req : SimulationRequest) :
    Except String SimulationResult × Except String SimulationResult :=
  (simRun u id1 req, simRun (shiftStream (simConsumption req) u) id2 req)

/-- numericPart strips the run id: everything numeric the claim speaks of
(projected states, aggregates, risk score, cost, recommendation,
confidence). -/
def numericPart (r : SimulationResult) :
    List ProjectedState × SimulationAggregates × ℚ × ℚ × String × ℚ :=
  (r.projectedStates, r.aggregates, r.riskScore, r.costProjection,
    r.recommendation, r.confidence)

lemma simValidate_ok (r : SimulationRequest) (h1 : r.serviceID ≠ "")
    (h2 : r.currentState ≠ none) :
    ∃ nr, simValidate r = .ok nr ∧
      nr.horizonMinutes =
        (if r.horizonMinutes < 5 ∨ 15 < r.horizonMinutes then 10
          else r.horizonMinutes) ∧
      nr.iterations = (if r.iterations < 100 then 1000 else r.iterations) ∧
      nr.scenKind = (if r.scenKind = "" then ("normal") else r.scenKind) ∧
      nr.currentState = r.currentState := by
  have h2b : r.currentState.isNone = false := by
    cases hc : r.currentState with
    | none => exact absurd hc h2
    | some _ => rfl
  unfold simValidate
  rw [if_neg h1, if_neg (by simp [h2b])]
  refine ⟨_, rfl, ?_, ?_, ?_, ?_⟩
  all_goals
    simp only [Bool.or_eq_true, decide_eq_true_eq, gt_iff_lt]
    split_ifs <;> simp_all

/-- C10: for every simulation request with a non-empty service id and a
present current state, Run succeeds — out-of-range bounds are silently
normalized rather than rejected: a horizon outside 5..15 becomes 10,
iterations below 100 become 1000, an empty scenario becomes normal — so
the completed result always reports a horizon within 5..15 and at least
100 iterations. -/
theorem C10_run_bound_normalization (u : Nat → ℚ) (runID : String)
    (req : SimulationRequest) (h1 : req.serviceID ≠ "")
    (h2 : req.currentState ≠ none) :
    ∃ res, simRun u runID req = .ok res ∧
      res.status = "completed" ∧
      5 ≤ res.horizonMinutes ∧ res.horizonMinutes ≤ 15 ∧
      100 ≤ res.iterations ∧
      res.horizonMinutes =
        (if req.horizonMinutes < 5 ∨ 15 < req.horizonMinutes then 10
          else req.horizonMinutes) ∧
      res.iterations = (if req.iterations < 100 then 1000 else req.iterations) ∧
      res.scenKind = (if req.scenKind = "" then ("normal") else req.scenKind) := by
  obtain ⟨nr, hval, hh, hi, hs, _⟩ := simValidate_ok req h1 h2
  unfold simRun
  rw [hval]
  refine ⟨_, rfl, rfl, ?_, ?_, ?_, hh, hi, hs⟩
  · show 5 ≤ nr.horizonMinutes
    rw [hh]; split_ifs <;> omega
  · show nr.horizonMinutes ≤ 15
    rw [hh]; split_ifs <;> omega
  · show 100 ≤ nr.iterations
    rw [hi]; split_ifs <;> omega

/-- Concrete request for the simulation claims: out-of-range horizon 99
and iterations 3 for the C10 witness. -/
def reqC10 : SimulationRequest :=
  { serviceID := "svc", scenKind := "", horizonMinutes := 99, iterations := 3,
    currentState := some {} }

/-- C10 witness: the theorem applied to a request violating every bound:
horizon 99 becomes 10, iterations 3 become 1000, the empty scenario
becomes normal, and the run completes. -/
theorem C10_witness :
    ∃ res, simRun (fun _ => 1/2) "run-w" reqC10 = .ok res ∧
      res.status = "completed" ∧
      5 ≤ res.horizonMinutes ∧ res.horizonMinutes ≤ 15 ∧
      100 ≤ res.iterations ∧
      res.horizonMinutes =
        (if reqC10.horizonMinutes < 5 ∨ 15 < reqC10.horizonMinutes then 10
          else reqC10.horizonMinutes) ∧
      res.iterations =
        (if reqC10.iterations < 100 then 1000 else reqC10.iterations) ∧
      res.scenKind = (if reqC10.scenKind = "" then ("normal") else reqC10.scenKind) :=
  C10_run_bound_normalization (fun _ => 1/2) "run-w" reqC10
    (by decide) (by decide)

lemma projectLoop_congr (a b c : ℚ) :
    ∀ (steps minute : Nat) (cpu er lat : ℚ) (u v : Nat → ℚ),
      (∀ k, k < 5 * steps → u k = v k) →
      projectLoop u a b c steps minute cpu er lat =
        projectLoop v a b c steps minute cpu er lat := by
  intro steps
  induction steps with
  | zero => intro minute cpu er lat u v _; rfl
  | succ m ih =>
      intro minute cpu er lat u v h
      have h0 := h 0 (by omega)
      have h1 := h 1 (by omega)
      have h2 := h 2 (by omega)
      have h3 := h 3 (by omega)
      have h4 := h 4 (by omega)
      simp only [projectLoop, h0, h1, h2, h3, h4]
      congr 1
      exact ih (minute + 1) _ _ _ (shiftStream 5 u) (shiftStream 5 v)
        (fun k hk => h (5 + k) (by omega))

lemma runProjections_congr (cur : ServiceFeatures) (h : Nat) (sc : String) :
    ∀ (iters : Nat) (u v : Nat → ℚ),
      (∀ k, k < iters * (5 * h) → u k = v k) →
      runProjections u cur h sc iters = runProjections v cur h sc iters := by
  intro iters
  induction iters with
  | zero => intro u v _; rfl
  | succ m ih =>
      intro u v hw
      simp only [runProjections]
      have hmul : (m + 1) * (5 * h) = m * (5 * h) + 5 * h := by ring
      have hhead : projectState u cur h sc = projectState v cur h sc := by
        unfold projectState
        exact projectLoop_congr _ _ _ h 1 _ _ _ u v
          (fun k hk => hw k (by omega))
      rw [hhead]
      congr 1
      exact ih (shiftStream (5 * h) u) (shiftStream (5 * h) v)
        (fun k hk => hw (5 * h + k) (by omega))

/-- C8 (amended): Run has no caller-supplied seed (SimulationRequest
carries no seed field and NewService seeds the package-global PRNG once,
not once per run); what does hold is that the numeric results — projected
states, aggregates, risk score, cost, recommendation, confidence — are a
deterministic function of the request and the portion of the global PRNG
stream the run consumes: two Run calls, even with different run ids,
whose streams agree on the consumed window return identical numeric
results. -/
theorem C8_prng_determinism (u v : Nat → ℚ) (id1 id2 : String)
    (req : SimulationRequest)
    (hw : ∀ k, k < simConsumption req → u k = v k) :
    (simRun u id1 req).map numericPart = (simRun v id2 req).map numericPart := by
  cases hval : simValidate req with
  | error e => simp [simRun, hval]
  | ok r =>
      have hcons : simConsumption req = r.iterations.toNat * (5 * r.horizonMinutes.toNat) := by
        simp [simConsumption, hval]
      have hproj : runProjections u (r.currentState.getD {}) r.horizonMinutes.toNat
          r.scenKind r.iterations.toNat =
          runProjections v (r.currentState.getD {}) r.horizonMinutes.toNat
            r.scenKind r.iterations.toNat :=
        runProjections_congr _ _ _ _ u v (fun k hk => hw k (by rw [hcons]; exact hk))
      simp only [simRun, hval, Except.map, numericPart]
      rw [hproj]

/-- Stream exhibiting the global-state divergence: the first run of reqC8
consumes draws 0..2499 (all one half), the second run reads the
continuation (all one). -/
def uC8 : Nat → ℚ := fun n => if n < 2500 then 1/2 else 1

def featsC8 : ServiceFeatures :=
  { cpuCurrent := 50, latencyP95 := 450, errorRate := 1/20 }

def reqC8 : SimulationRequest :=
  { serviceID := "svc", scenKind := "normal", horizonMinutes := 5,
    iterations := 100, currentState := some featsC8 }

set_option maxRecDepth 100000

/-- C8 counterexample: two Run invocations with the SAME request on the
same service (sharing the once-seeded global PRNG, as the code does)
return different numeric results — already the first aggregated projected
minute differs (cpu 50 versus 52.5) — so reproducibility via a
caller-supplied per-run seed is false of this code; no seed can even be
supplied. -/
theorem C8_counterexample :
    ((simRunTwice uC8 ("run-1") ("run-2") reqC8).1.toOption.map
      (fun r => (r.projectedStates.getD 0 {}).cpuAvg)) ≠
    ((simRunTwice uC8 ("run-1") ("run-2") reqC8).2.toOption.map
      (fun r => (r.projectedStates.getD 0 {}).cpuAvg)) := by
  decide

/-- C8 witness: the determinism theorem applied to two runs with
different run ids over literally equal streams. -/
theorem C8_witness :
    (simRun (fun _ => 1/2) "run-a" reqC8).map numericPart =
    (simRun (fun _ => 1/2) "run-b" reqC8).map numericPart :=
  C8_prng_determinism (fun _ => 1/2) (fun _ => 1/2) "run-a" "run-b" reqC8
    (fun _ _ => rfl)

end ADE
